import Mathlib

/-!
Verification of the go-vl53l1x driver (ST VL53L1X time-of-flight sensor).

This file is a shallow embedding of the driver's Go source.  Machine
integers (uint8/uint16/uint32) are modelled as `Nat` with explicit
`% 2^w` reductions exactly where Go's fixed-width arithmetic can wrap.
The I2C transport is out of scope for the driver (an external
capability); it is modelled as an abstract state machine `BusOps σ`
whose operations may fail (`none` = transport error).  An idealised
instance `idealBus` models a device whose registers read back the bytes
last written, and which records every write transaction in a trace.
Go's run-time panic on integer division by zero is modelled as the
distinguished error `DriverError.divByZeroPanic`, raised at exactly the
program points where the Go code would divide by zero.
-/

namespace VL53

/-! ## Register map (vl53l1x registers file) -/

def SOFT_RESET : Nat := 0x0000
def I2C_SLAVE_DEVICE_ADDRESS : Nat := 0x0001
def IDENTIFICATION_MODEL_ID : Nat := 0x010F
def FIRMWARE_SYSTEM_STATUS : Nat := 0x00E5
def OSC_MEASURED_FAST_OSC_FREQUENCY : Nat := 0x0006
def RESULT_OSC_CALIBRATE_VAL : Nat := 0x00DE
def DSS_CONFIG_TARGET_TOTAL_RATE_MCPS : Nat := 0x0024
def DSS_CONFIG_MANUAL_EFFECTIVE_SPADS_SELECT : Nat := 0x0054
def DSS_CONFIG_ROI_MODE_CONTROL : Nat := 0x004F
def DSS_CONFIG_APERTURE_ATTENUATION : Nat := 0x0057
def SD_CONFIG_WOI_SD0 : Nat := 0x0078
def SD_CONFIG_WOI_SD1 : Nat := 0x0079
def SD_CONFIG_INITIAL_PHASE_SD0 : Nat := 0x007A
def SD_CONFIG_INITIAL_PHASE_SD1 : Nat := 0x007B
def PAD_I2C_HV_EXTSUP_CONFIG : Nat := 0x002E
def GPIO_TIO_HV_STATUS : Nat := 0x0031
def SIGMA_EST_EFFECTIVE_PULSE_WIDTH_NS : Nat := 0x0036
def SIGMA_EST_EFFECTIVE_AMBIENT_WIDTH_NS : Nat := 0x0037
def ALGO_CROSSTALK_COMP_VALID_HEIGHT_MM : Nat := 0x0039
def ALGO_RANGE_IGNORE_VALID_HEIGHT_MM : Nat := 0x003E
def ALGO_RANGE_MIN_CLIP : Nat := 0x003F
def ALGO_CONSISTENCY_CHECK_TOLERANCE : Nat := 0x0040
def SYSTEM_THRESH_RATE_HIGH : Nat := 0x0050
def SYSTEM_THRESH_RATE_LOW : Nat := 0x0052
def RANGE_CONFIG_SIGMA_THRESH : Nat := 0x0064
def RANGE_CONFIG_MIN_COUNT_RATE_RTN_LIMIT_MCPS : Nat := 0x0066
def RANGE_CONFIG_VCSEL_PERIOD_A : Nat := 0x0060
def RANGE_CONFIG_VCSEL_PERIOD_B : Nat := 0x0063
def RANGE_CONFIG_VALID_PHASE_HIGH : Nat := 0x0069
def SYSTEM_GROUPED_PARAMETER_HOLD_0 : Nat := 0x0071
def SYSTEM_GROUPED_PARAMETER_HOLD_1 : Nat := 0x007C
def SD_CONFIG_QUANTIFIER : Nat := 0x007E
def SYSTEM_GROUPED_PARAMETER_HOLD : Nat := 0x0082
def SYSTEM_SEED_CONFIG : Nat := 0x0077
def SYSTEM_SEQUENCE_CONFIG : Nat := 0x0081
def ROI_CONFIG_USER_ROI_CENTRE_SPAD : Nat := 0x007F
def ROI_CONFIG_USER_ROI_REQUESTED_GLOBAL_XY_SIZE : Nat := 0x0080
def MM_CONFIG_OUTER_OFFSET_MM : Nat := 0x0022
def PHASECAL_CONFIG_TIMEOUT_MACROP : Nat := 0x004B
def MM_CONFIG_TIMEOUT_MACROP_A : Nat := 0x005A
def RANGE_CONFIG_TIMEOUT_MACROP_A : Nat := 0x005E
def MM_CONFIG_TIMEOUT_MACROP_B : Nat := 0x005C
def RANGE_CONFIG_TIMEOUT_MACROP_B : Nat := 0x0061
def PHASECAL_CONFIG_OVERRIDE : Nat := 0x004D
def CAL_CONFIG_VCSEL_START : Nat := 0x0047
def VHV_CONFIG_INIT : Nat := 0x000B
def VHV_CONFIG_TIMEOUT_MACROP_LOOP_BOUND : Nat := 0x0008
def PHASECAL_RESULT_VCSEL_START : Nat := 0x00D8
def SYSTEM_INTERRUPT_CLEAR : Nat := 0x0086
def SYSTEM_MODE_START : Nat := 0x0087
def SYSTEM_INTERMEASUREMENT_PERIOD : Nat := 0x006C
def RESULT_RANGE_STATUS : Nat := 0x0089
def ALGO_PART_TO_PART_RANGE_OFFSET_MM : Nat := 0x001E

/-- `TimingGuard` (µs), used in measurement timing budget calculations. -/
def TimingGuard : Nat := 4528

/-- `TargetRate`, used in DSS calculations (uint16). -/
def TargetRate : Nat := 0x0A00

/-! ## TimeoutCodec: pure fixed-point timing arithmetic (range.go) -/

/-- `decodeTimeout`: decode sequence step timeout in MCLKs from a 16-bit
register value: `(uint32(regVal&0xFF) << (regVal >> 8)) + 1`, with Go's
uint32 shift/add semantics (shifts of 32 or more produce 0). -/
def decodeTimeout (regVal : Nat) : Nat :=
  let r := regVal % 2 ^ 16
  (((r &&& 0xFF) <<< (r >>> 8)) % 2 ^ 32 + 1) % 2 ^ 32

/-- The `for lsByte&0xFFFFFF00 > 0 { lsByte >>= 1; msByte++ }` loop of
`encodeTimeout`.  `fuel` bounds the iteration count purely to make the
recursion structural: for any uint32 `lsByte` at most 24 iterations can
ever run (each iteration requires a set bit among bits 8..31), so the
fuel of 32 supplied by `encodeTimeout` is never exhausted. -/
def encodeLoop : Nat → Nat → Nat → Nat × Nat
  | 0, lsByte, msByte => (lsByte, msByte)
  | fuel + 1, lsByte, msByte =>
    if lsByte &&& 0xFFFFFF00 > 0 then encodeLoop fuel (lsByte >>> 1) (msByte + 1)
    else (lsByte, msByte)

/-- `encodeTimeout`: encode a sequence step timeout (in MCLKs, uint32)
as a 16-bit register value: 0 maps to 0; otherwise `timeoutMclks - 1`
is shifted right until it fits in 8 bits, packing the shift count into
the high byte. -/
def encodeTimeout (timeoutMclks : Nat) : Nat :=
  let t := timeoutMclks % 2 ^ 32
  if t > 0 then
    let p := encodeLoop 32 (t - 1) 0
    ((p.2 <<< 8) % 2 ^ 16) ||| (p.1 &&& 0xFF)
  else 0

/-- `timeoutMclksToMicroseconds`: `((timeoutMclks * macroPeriodUs) + 0x800) >> 12`
in uint32 arithmetic (macro period is in 12.12 fixed-point µs). -/
def timeoutMclksToMicroseconds (timeoutMclks macroPeriodUs2 : Nat) : Nat :=
  (((timeoutMclks * macroPeriodUs2) % 2 ^ 32 + 0x800) % 2 ^ 32) >>> 12

/-- `timeoutMicrosecondsToMclks`: `(((timeoutUs << 12) + (macroPeriodUs >> 1)) / macroPeriodUs)`
in uint32 arithmetic.  Division by zero is Go's run-time panic; callers
in the driver check for it explicitly (see `SetMeasurementTimingBudget`). -/
def timeoutMicrosecondsToMclks (timeoutUs macroPeriodUs2 : Nat) : Nat :=
  (((timeoutUs <<< 12) % 2 ^ 32 + (macroPeriodUs2 >>> 1)) % 2 ^ 32) / macroPeriodUs2

/-- `calcMacroPeriod`: macro period in 12.12-format µs from a VCSEL
period register value (uint8) and the stored fast-oscillator frequency
(uint16), replicating the source's exact shift/multiply order in uint32
arithmetic.  (In Go this is a method reading `v.fastOscFrequency`;
here the frequency is the first argument.) -/
def calcMacroPeriod (fastOscFrequency vcselPeriod : Nat) : Nat :=
  let pllPeriodUs := (1 <<< 30) / (fastOscFrequency % 2 ^ 16)
  let vcselPeriodPclks := ((vcselPeriod % 2 ^ 8) + 1) <<< 1
  let m1 := (2304 * pllPeriodUs) % 2 ^ 32
  let m2 := m1 >>> 6
  let m3 := (m2 * vcselPeriodPclks) % 2 ^ 32
  m3 >>> 6

/-! ## Driver data model (vl53l1x.go) -/

/-- Errors surfaced by driver operations.  `transport` stands for any
error propagated from the I2C bus; `msg` carries the driver's own
`fmt.Errorf` message; `divByZeroPanic` models Go's run-time panic on
integer division by zero (raised at the exact program points where the
Go code would divide by zero). -/
inductive DriverError where
  | transport : DriverError
  | divByZeroPanic : DriverError
  | msg : String → DriverError
deriving Repr, DecidableEq

deriving instance DecidableEq for Except

/-- `resultBuffer` holds raw values read from the sensor (uint8/uint16
fields). -/
structure ResultBuffer where
  rangeStatus : Nat
  streamCount : Nat
  dssActualEffectiveSpadsSD0 : Nat
  ambientCountRateMCPS_SD0 : Nat
  finalCrosstalkCorrectedRangeMM_SD0 : Nat
  peakSignalCountRateCrosstalkCorrectedMCPS_SD0 : Nat
deriving Repr, DecidableEq

/-- `DistanceMode` is a Go `int`; its three named values are 0, 1, 2. -/
def Short : Int := 0
def Medium : Int := 1
def Long : Int := 2

/-- The driver instance (struct `VL53L1X`), over an abstract bus state
`σ`.  The wall-clock fields (`ioTimeout`, `timeoutStart`) of the Go
struct are not representable; the readiness-poll timeout they control
is modelled by the explicit poll budget passed to `Read`. -/
structure VL53L1X (σ : Type) where
  bus : σ
  didTimeout : Bool
  fastOscFrequency : Nat
  oscCalibrateVal : Nat
  calibrated : Bool
  savedVHVInit : Nat
  savedVHVTimeout : Nat
  distanceMode : Int
  timingBudget : Nat
  lastStatus : Nat
  results : ResultBuffer
deriving Repr, DecidableEq

/-- A driver operation: it threads the driver state and either returns
a value or an error.  Go methods mutate `v` in place; the state
returned alongside an error is the state at the point of failure. -/
def DriverM (σ : Type) (α : Type) : Type :=
  VL53L1X σ → Except DriverError α × VL53L1X σ

instance instMonadDriverM {σ : Type} : Monad (DriverM σ) where
  pure a := fun v => (Except.ok a, v)
  bind m f := fun v =>
    match m v with
    | (Except.ok a, v2) => f a v2
    | (Except.error e, v2) => (Except.error e, v2)

/-- Return an error (a Go `return err` / `return fmt.Errorf(...)`). -/
def fail {σ : Type} {α : Type} (e : DriverError) : DriverM σ α :=
  fun v => (Except.error e, v)

/-- Read the driver state (access to the receiver's fields). -/
def getDrv {σ : Type} : DriverM σ (VL53L1X σ) := fun v => (Except.ok v, v)

/-- Update the driver state (an assignment to the receiver's fields). -/
def setDrv {σ : Type} (f : VL53L1X σ → VL53L1X σ) : DriverM σ Unit :=
  fun v => (Except.ok (), f v)

/-! ## RegisterIO (the registers file)

The bus itself is an external capability: `writeBytes` sends a
transaction (2-byte big-endian register address followed by the data
bytes); `readBytes n` reads `n` bytes from the address selected by the
last address-only write.  `none` models a transport error. -/

structure BusOps (σ : Type) where
  writeBytes : σ → List Nat → Option σ
  readBytes : σ → Nat → Option (σ × List Nat)

/-- `writeReg` writes an 8-bit value to a 16-bit register address. -/
def writeReg {σ : Type} (B : BusOps σ) (reg value : Nat) : DriverM σ Unit :=
  fun v =>
    match B.writeBytes v.bus [reg >>> 8 % 256, reg % 256, value % 256] with
    | some s2 => (Except.ok (), { v with bus := s2, lastStatus := 0 })
    | none => (Except.error DriverError.transport, v)

/-- `writeReg16Bit` writes a 16-bit value (big-endian). -/
def writeReg16Bit {σ : Type} (B : BusOps σ) (reg value : Nat) : DriverM σ Unit :=
  fun v =>
    match B.writeBytes v.bus
        [reg >>> 8 % 256, reg % 256, value >>> 8 % 256, value % 256] with
    | some s2 => (Except.ok (), { v with bus := s2, lastStatus := 0 })
    | none => (Except.error DriverError.transport, v)

/-- `writeReg32Bit` writes a 32-bit value (big-endian). -/
def writeReg32Bit {σ : Type} (B : BusOps σ) (reg value : Nat) : DriverM σ Unit :=
  fun v =>
    match B.writeBytes v.bus
        [reg >>> 8 % 256, reg % 256, value >>> 24 % 256, value >>> 16 % 256,
         value >>> 8 % 256, value % 256] with
    | some s2 => (Except.ok (), { v with bus := s2, lastStatus := 0 })
    | none => (Except.error DriverError.transport, v)

/-- `readReg` reads an 8-bit value: write the 2-byte address, then read
one byte.  A short read is an error.  (`% 256` reflects the Go `[]byte`
element type.) -/
def readReg {σ : Type} (B : BusOps σ) (reg : Nat) : DriverM σ Nat :=
  fun v =>
    match B.writeBytes v.bus [reg >>> 8 % 256, reg % 256] with
    | none => (Except.error DriverError.transport, v)
    | some s2 =>
      match B.readBytes s2 1 with
      | none => (Except.error DriverError.transport, { v with bus := s2 })
      | some (s3, b0 :: _) => (Except.ok (b0 % 256), { v with bus := s3 })
      | some (s3, []) =>
        (Except.error (DriverError.msg "readReg: insufficient data"), { v with bus := s3 })

/-- `readReg16Bit` reads a 16-bit big-endian value. -/
def readReg16Bit {σ : Type} (B : BusOps σ) (reg : Nat) : DriverM σ Nat :=
  fun v =>
    match B.writeBytes v.bus [reg >>> 8 % 256, reg % 256] with
    | none => (Except.error DriverError.transport, v)
    | some s2 =>
      match B.readBytes s2 2 with
      | none => (Except.error DriverError.transport, { v with bus := s2 })
      | some (s3, b0 :: b1 :: _) =>
        (Except.ok (b0 % 256 * 256 + b1 % 256), { v with bus := s3 })
      | some (s3, _) =>
        (Except.error (DriverError.msg "readReg16Bit: insufficient data"), { v with bus := s3 })

/-! ## ResultDecoder types (range.go) -/

/-- `RangeStatus` — the sensor's reported status (a Go uint8-based
enumeration; see `RangeStatus.code` for the numeric values). -/
inductive RangeStatus where
  | RangeValid
  | SigmaFail
  | SignalFail
  | RangeValidMinRangeClipped
  | OutOfBoundsFail
  | HardwareFail
  | RangeValidNoWrapCheckFail
  | WrapTargetFail
  | XtalkSignalFail
  | SynchronizationInt
  | MinRangeFail
  | NoneStatus
deriving Repr, DecidableEq

/-- The uint8 value of each `RangeStatus` constant in the source. -/
def RangeStatus.code : RangeStatus → Nat
  | .RangeValid => 0
  | .SigmaFail => 1
  | .SignalFail => 2
  | .RangeValidMinRangeClipped => 3
  | .OutOfBoundsFail => 4
  | .HardwareFail => 5
  | .RangeValidNoWrapCheckFail => 6
  | .WrapTargetFail => 7
  | .XtalkSignalFail => 9
  | .SynchronizationInt => 10
  | .MinRangeFail => 13
  | .NoneStatus => 255

/-- The `String()` method of `RangeStatus`. -/
def statusString : RangeStatus → String
  | .RangeValid => "range valid"
  | .SigmaFail => "sigma fail"
  | .SignalFail => "signal fail"
  | .RangeValidMinRangeClipped => "range valid, min range clipped"
  | .OutOfBoundsFail => "out of bounds fail"
  | .HardwareFail => "hardware fail"
  | .RangeValidNoWrapCheckFail => "range valid, no wrap check fail"
  | .WrapTargetFail => "wrap target fail"
  | .XtalkSignalFail => "xtalk signal fail"
  | .SynchronizationInt => "synchronization int"
  | .MinRangeFail => "min range fail"
  | .NoneStatus => "no update"

/-- `RangingData` — a decoded measurement.  The two count rates are
9.7 fixed-point values divided by 128; they are exactly representable
in binary floating point for every 16-bit input, so Lean's `Float`
carries the same values as Go's `float32`. -/
structure RangingData where
  RangeMM : Nat
  rangeStatus : RangeStatus
  PeakSignalCountRateMCPS : Float
  AmbientCountRateMCPS : Float

/-- `countRateFixedToFloat`: convert count rate from fixed-point 9.7
format to floating point. -/
def countRateFixedToFloat (countRateFixed : Nat) : Float :=
  Nat.toFloat countRateFixed / Nat.toFloat (1 <<< 7)

/-! ## Driver operations (range.go) -/

/-- `dataReady`: data is ready when bit 0 of GPIO_TIO_HV_STATUS is 0
(interrupt is active low). -/
def dataReady {σ : Type} (B : BusOps σ) : DriverM σ Bool := do
  let status ← readReg B GPIO_TIO_HV_STATUS
  pure ((status &&& 0x01) == 0)

/-- `readResults` reads the 17-byte result block starting at
RESULT_RANGE_STATUS into the driver's result buffer. -/
def readResults {σ : Type} (B : BusOps σ) : DriverM σ Unit :=
  fun v =>
    match B.writeBytes v.bus
        [RESULT_RANGE_STATUS >>> 8 % 256, RESULT_RANGE_STATUS % 256] with
    | none => (Except.error DriverError.transport, v)
    | some s2 =>
      match B.readBytes s2 17 with
      | none => (Except.error DriverError.transport, { v with bus := s2 })
      | some (s3, buf) =>
        if buf.length < 17 then
          (Except.error (DriverError.msg "readResults: insufficient data read"),
           { v with bus := s3 })
        else
          (Except.ok (),
           { v with
             bus := s3,
             results :=
               { rangeStatus := buf.getD 0 0 % 256,
                 streamCount := buf.getD 2 0 % 256,
                 dssActualEffectiveSpadsSD0 :=
                   buf.getD 3 0 % 256 * 256 + buf.getD 4 0 % 256,
                 ambientCountRateMCPS_SD0 :=
                   buf.getD 7 0 % 256 * 256 + buf.getD 8 0 % 256,
                 finalCrosstalkCorrectedRangeMM_SD0 :=
                   buf.getD 13 0 % 256 * 256 + buf.getD 14 0 % 256,
                 peakSignalCountRateCrosstalkCorrectedMCPS_SD0 :=
                   buf.getD 15 0 % 256 * 256 + buf.getD 16 0 % 256 } })

/-- `setupManualCalibration`: save and override the VHV configuration
after the first range of a low-power-auto session. -/
def setupManualCalibration {σ : Type} (B : BusOps σ) : DriverM σ Unit := do
  let initVal ← readReg B VHV_CONFIG_INIT
  setDrv (fun v => { v with savedVHVInit := initVal })
  let timeoutVal ← readReg B VHV_CONFIG_TIMEOUT_MACROP_LOOP_BOUND
  setDrv (fun v => { v with savedVHVTimeout := timeoutVal })
  let v ← getDrv
  writeReg B VHV_CONFIG_INIT (v.savedVHVInit &&& 0x7F)
  let newVal := (v.savedVHVTimeout &&& 0x03) + (3 <<< 2)
  writeReg B VHV_CONFIG_TIMEOUT_MACROP_LOOP_BOUND newVal
  writeReg B PHASECAL_CONFIG_OVERRIDE 0x01
  let phStart ← readReg B PHASECAL_RESULT_VCSEL_START
  writeReg B CAL_CONFIG_VCSEL_START phStart

/-- `updateDSS`: dynamic SPAD selection update.  The two `else`
branches are the single fall-through fallback write of the Go code
("if we reached this point ... fall back to a mid-point target"). -/
def updateDSS {σ : Type} (B : BusOps σ) : DriverM σ Unit := do
  let v ← getDrv
  let spadCount := v.results.dssActualEffectiveSpadsSD0
  if spadCount ≠ 0 then
    let t1 := v.results.peakSignalCountRateCrosstalkCorrectedMCPS_SD0 +
      v.results.ambientCountRateMCPS_SD0
    let t2 := if t1 > 0xFFFF then 0xFFFF else t1
    let t3 := (t2 <<< 16) % 2 ^ 32
    let totalRatePerSpad := t3 / spadCount
    if totalRatePerSpad ≠ 0 then
      let r1 := (TargetRate <<< 16) % 2 ^ 32 / totalRatePerSpad
      let requiredSpads := if r1 > 0xFFFF then 0xFFFF else r1
      writeReg16Bit B DSS_CONFIG_MANUAL_EFFECTIVE_SPADS_SELECT (requiredSpads % 2 ^ 16)
    else
      writeReg16Bit B DSS_CONFIG_MANUAL_EFFECTIVE_SPADS_SELECT 0x8000
  else
    writeReg16Bit B DSS_CONFIG_MANUAL_EFFECTIVE_SPADS_SELECT 0x8000

/-- `getRangingData`: decode range, status and rates from the result
buffer.  The Go `switch` is a sequential comparison against the listed
raw status codes. -/
def getRangingData {σ : Type} (v : VL53L1X σ) : RangingData :=
  let rangeVal := v.results.finalCrosstalkCorrectedRangeMM_SD0
  let rangeMM := (rangeVal * 2011 + 0x0400) % 2 ^ 32 / 0x0800 % 2 ^ 16
  let rs := v.results.rangeStatus
  let status :=
    if rs = 17 ∨ rs = 2 ∨ rs = 1 ∨ rs = 3 then RangeStatus.HardwareFail
    else if rs = 13 then RangeStatus.MinRangeFail
    else if rs = 18 then RangeStatus.SynchronizationInt
    else if rs = 5 then RangeStatus.OutOfBoundsFail
    else if rs = 4 then RangeStatus.SignalFail
    else if rs = 6 then RangeStatus.SigmaFail
    else if rs = 7 then RangeStatus.WrapTargetFail
    else if rs = 12 then RangeStatus.XtalkSignalFail
    else if rs = 8 then RangeStatus.RangeValidMinRangeClipped
    else if rs = 9 then
      (if v.results.streamCount = 0 then RangeStatus.RangeValidNoWrapCheckFail
       else RangeStatus.RangeValid)
    else RangeStatus.NoneStatus
  { RangeMM := rangeMM,
    rangeStatus := status,
    PeakSignalCountRateMCPS :=
      countRateFixedToFloat v.results.peakSignalCountRateCrosstalkCorrectedMCPS_SD0,
    AmbientCountRateMCPS := countRateFixedToFloat v.results.ambientCountRateMCPS_SD0 }

/-- The blocking readiness poll of `Read`.  `pollFuel` is the number of
additional polls allowed before the configured I/O timeout expires
(abstracting the wall-clock `checkTimeoutExpired`/`time.Sleep` pair);
on expiry the sticky `didTimeout` flag is set and the poll fails. -/
def pollUntilReady {σ : Type} (B : BusOps σ) : Nat → DriverM σ Unit
  | 0 => do
    let ready ← dataReady B
    if ready then pure ()
    else fun v =>
      (Except.error (DriverError.msg "timeout waiting for data"),
       { v with didTimeout := true })
  | fuel + 1 => do
    let ready ← dataReady B
    if ready then pure ()
    else pollUntilReady B fuel

/-- `Read`: wait (if blocking) for a new measurement, read the result
block, run the once-per-session manual calibration, update DSS, decode
the measurement and clear the interrupt. -/
def Read {σ : Type} (B : BusOps σ) (blocking : Bool) (pollFuel : Nat) :
    DriverM σ RangingData := do
  if blocking then pollUntilReady B pollFuel else pure ()
  readResults B
  let v ← getDrv
  if !v.calibrated then do
    setupManualCalibration B
    setDrv (fun w => { w with calibrated := true })
  else pure ()
  updateDSS B
  let v2 ← getDrv
  let rData := getRangingData v2
  writeReg B SYSTEM_INTERRUPT_CLEAR 0x01
  pure rData

/-- `StartContinuous`: write the inter-measurement period
(`periodMs * oscCalibrateVal`, uint32), clear the interrupt flag and
issue the timed-mode start command (0x40). -/
def StartContinuous {σ : Type} (B : BusOps σ) (periodMs : Nat) : DriverM σ Unit := do
  let v ← getDrv
  let val := (periodMs % 2 ^ 32) * (v.oscCalibrateVal % 2 ^ 16) % 2 ^ 32
  writeReg32Bit B SYSTEM_INTERMEASUREMENT_PERIOD val
  writeReg B SYSTEM_INTERRUPT_CLEAR 0x01
  writeReg B SYSTEM_MODE_START 0x40

/-- `StopContinuous`: issue the abort command (0x80), clear the
session's calibrated flag, restore the saved VHV configuration (each
register only when its saved value is nonzero) and remove the phasecal
override. -/
def StopContinuous {σ : Type} (B : BusOps σ) : DriverM σ Unit := do
  writeReg B SYSTEM_MODE_START 0x80
  setDrv (fun v => { v with calibrated := false })
  let v ← getDrv
  if v.savedVHVInit ≠ 0 then writeReg B VHV_CONFIG_INIT v.savedVHVInit
  else pure ()
  let v2 ← getDrv
  if v2.savedVHVTimeout ≠ 0 then
    writeReg B VHV_CONFIG_TIMEOUT_MACROP_LOOP_BOUND v2.savedVHVTimeout
  else pure ()
  writeReg B PHASECAL_CONFIG_OVERRIDE 0x00

/-- `SetMeasurementTimingBudget` (budget in ms, a Go uint32).  The
divisions the Go code performs inside `calcMacroPeriod` and
`timeoutMicrosecondsToMclks` panic at run time when the divisor is
zero; the explicit checks below raise `divByZeroPanic` at exactly
those program points. -/
def SetMeasurementTimingBudget {σ : Type} (B : BusOps σ) (budget : Nat) :
    DriverM σ Unit := do
  let budgetUs := (budget % 2 ^ 32) * 1000 % 2 ^ 32
  if budgetUs ≤ TimingGuard then fail (DriverError.msg "timing budget too low")
  else
    let rangeTimeoutUs := (budgetUs - TimingGuard) / 2
    if rangeTimeoutUs > 1100000 then fail (DriverError.msg "timing budget too high")
    else do
      let vcselA ← readReg B RANGE_CONFIG_VCSEL_PERIOD_A
      let v ← getDrv
      if v.fastOscFrequency % 2 ^ 16 == 0 then fail DriverError.divByZeroPanic
      else
        let macroPeriodUsA := calcMacroPeriod v.fastOscFrequency vcselA
        if macroPeriodUsA == 0 then fail DriverError.divByZeroPanic
        else do
          let p1 := timeoutMicrosecondsToMclks 1000 macroPeriodUsA
          let phasecalTimeoutMclks := if p1 > 0xFF then 0xFF else p1
          writeReg B PHASECAL_CONFIG_TIMEOUT_MACROP (phasecalTimeoutMclks % 2 ^ 8)
          let mmTimeoutA := timeoutMicrosecondsToMclks 1 macroPeriodUsA
          writeReg16Bit B MM_CONFIG_TIMEOUT_MACROP_A (encodeTimeout mmTimeoutA)
          let rangeTimeoutA := timeoutMicrosecondsToMclks rangeTimeoutUs macroPeriodUsA
          writeReg16Bit B RANGE_CONFIG_TIMEOUT_MACROP_A (encodeTimeout rangeTimeoutA)
          let vcselB ← readReg B RANGE_CONFIG_VCSEL_PERIOD_B
          let macroPeriodUsB := calcMacroPeriod v.fastOscFrequency vcselB
          if macroPeriodUsB == 0 then fail DriverError.divByZeroPanic
          else do
            let mmTimeoutB := timeoutMicrosecondsToMclks 1 macroPeriodUsB
            writeReg16Bit B MM_CONFIG_TIMEOUT_MACROP_B (encodeTimeout mmTimeoutB)
            let rangeTimeoutB := timeoutMicrosecondsToMclks rangeTimeoutUs macroPeriodUsB
            writeReg16Bit B RANGE_CONFIG_TIMEOUT_MACROP_B (encodeTimeout rangeTimeoutB)

/-- `GetMeasurementTimingBudget`: re-derive the budget (ms) from the
phase-A VCSEL period and encoded range timeout. -/
def GetMeasurementTimingBudget {σ : Type} (B : BusOps σ) : DriverM σ Nat := do
  let vcselA ← readReg B RANGE_CONFIG_VCSEL_PERIOD_A
  let v ← getDrv
  if v.fastOscFrequency % 2 ^ 16 == 0 then fail DriverError.divByZeroPanic
  else do
    let macroPeriodUsA := calcMacroPeriod v.fastOscFrequency vcselA
    let encoded ← readReg16Bit B RANGE_CONFIG_TIMEOUT_MACROP_A
    let rangeTimeoutUs := timeoutMclksToMicroseconds (decodeTimeout encoded) macroPeriodUsA
    pure ((2 * rangeTimeoutUs % 2 ^ 32 + TimingGuard) % 2 ^ 32 / 1000)

/-- `GetDistanceMode` returns the driver's stored mode field. -/
def GetDistanceMode {σ : Type} (v : VL53L1X σ) : Int := v.distanceMode

/-- `SetDistanceMode`: save the current budget, write the preset
register table for the requested mode, re-apply the budget, then store
the mode.  An unrecognized mode is an error. -/
def SetDistanceMode {σ : Type} (B : BusOps σ) (mode : Int) : DriverM σ Unit := do
  let budget ← GetMeasurementTimingBudget B
  if mode = Short then do
    writeReg B RANGE_CONFIG_VCSEL_PERIOD_A 0x07
    writeReg B RANGE_CONFIG_VCSEL_PERIOD_B 0x05
    writeReg B RANGE_CONFIG_VALID_PHASE_HIGH 0x38
    writeReg B SD_CONFIG_WOI_SD0 0x07
    writeReg B SD_CONFIG_WOI_SD1 0x05
    writeReg B SD_CONFIG_INITIAL_PHASE_SD0 6
    writeReg B SD_CONFIG_INITIAL_PHASE_SD1 6
    SetMeasurementTimingBudget B budget
    setDrv (fun v => { v with distanceMode := mode })
  else if mode = Medium then do
    writeReg B RANGE_CONFIG_VCSEL_PERIOD_A 0x0B
    writeReg B RANGE_CONFIG_VCSEL_PERIOD_B 0x09
    writeReg B RANGE_CONFIG_VALID_PHASE_HIGH 0x78
    writeReg B SD_CONFIG_WOI_SD0 0x0B
    writeReg B SD_CONFIG_WOI_SD1 0x09
    writeReg B SD_CONFIG_INITIAL_PHASE_SD0 10
    writeReg B SD_CONFIG_INITIAL_PHASE_SD1 10
    SetMeasurementTimingBudget B budget
    setDrv (fun v => { v with distanceMode := mode })
  else if mode = Long then do
    writeReg B RANGE_CONFIG_VCSEL_PERIOD_A 0x0F
    writeReg B RANGE_CONFIG_VCSEL_PERIOD_B 0x0D
    writeReg B RANGE_CONFIG_VALID_PHASE_HIGH 0xB8
    writeReg B SD_CONFIG_WOI_SD0 0x0F
    writeReg B SD_CONFIG_WOI_SD1 0x0D
    writeReg B SD_CONFIG_INITIAL_PHASE_SD0 14
    writeReg B SD_CONFIG_INITIAL_PHASE_SD1 14
    SetMeasurementTimingBudget B budget
    setDrv (fun v => { v with distanceMode := mode })
  else fail (DriverError.msg "unrecognized distance mode")

/-! ## ROI operations (roi file) -/

/-- `SetROISize`: clamp width/height to 16, reject regions smaller than
4x4, force the default centre SPAD (199) when either dimension exceeds
10, then write the packed size register. -/
def SetROISize {σ : Type} (B : BusOps σ) (width height : Nat) : DriverM σ Unit := do
  let w0 := width % 2 ^ 8
  let h0 := height % 2 ^ 8
  let w := if w0 > 16 then 16 else w0
  let h := if h0 > 16 then 16 else h0
  if w < 4 ∨ h < 4 then fail (DriverError.msg "ROI size must be at least 4x4")
  else do
    if w > 10 ∨ h > 10 then writeReg B ROI_CONFIG_USER_ROI_CENTRE_SPAD 199
    else pure ()
    let val := ((h - 1) <<< 4) ||| (w - 1)
    writeReg B ROI_CONFIG_USER_ROI_REQUESTED_GLOBAL_XY_SIZE val

/-- `GetROISize` returns the current ROI width and height. -/
def GetROISize {σ : Type} (B : BusOps σ) : DriverM σ (Nat × Nat) := do
  let regVal ← readReg B ROI_CONFIG_USER_ROI_REQUESTED_GLOBAL_XY_SIZE
  pure ((regVal &&& 0x0F) + 1, (regVal >>> 4) + 1)

/-- `SetROICenter` sets the centre SPAD number of the ROI. -/
def SetROICenter {σ : Type} (B : BusOps σ) (spadNumber : Nat) : DriverM σ Unit :=
  writeReg B ROI_CONFIG_USER_ROI_CENTRE_SPAD spadNumber

/-- `GetROICenter` returns the current centre SPAD. -/
def GetROICenter {σ : Type} (B : BusOps σ) : DriverM σ Nat :=
  readReg B ROI_CONFIG_USER_ROI_CENTRE_SPAD

/-! ## The idealised bus

A device whose byte-addressed registers read back the bytes last
written, and which logs every write transaction (newest first). -/

structure IdealBus where
  mem : List (Nat × Nat)
  pending : Nat
  trace : List (List Nat)
deriving Repr, DecidableEq

/-- Read the byte at address `a` (0 when never written). -/
def memRead (mem : List (Nat × Nat)) (a : Nat) : Nat :=
  match mem with
  | [] => 0
  | (a2, b) :: rest => if a2 == a then b % 256 else memRead rest a

/-- Store consecutive bytes starting at address `a`. -/
def memStore : List (Nat × Nat) → Nat → List Nat → List (Nat × Nat)
  | mem, _, [] => mem
  | mem, a, b :: bs => memStore ((a, b % 256) :: mem) (a + 1) bs

def idealWriteBytes (s : IdealBus) (bs : List Nat) : Option IdealBus :=
  match bs with
  | hi :: lo :: data =>
    let addr := (hi % 256) * 256 + lo % 256
    some { mem := memStore s.mem addr data, pending := addr, trace := bs :: s.trace }
  | _ => none

def idealReadBytes (s : IdealBus) (n : Nat) : Option (IdealBus × List Nat) :=
  some (s, (List.range n).map (fun i => memRead s.mem (s.pending + i)))

def idealBus : BusOps IdealBus := ⟨idealWriteBytes, idealReadBytes⟩

/-- The 8-bit register writes addressed to `reg` in a trace (values,
newest first). -/
def writes8To (reg : Nat) (tr : List (List Nat)) : List Nat :=
  tr.filterMap (fun t =>
    match t with
    | [hi, lo, b0] =>
      if hi == reg >>> 8 % 256 && lo == reg % 256 then some b0 else none
    | _ => none)

/-- The 16-bit register writes addressed to `reg` in a trace (values,
newest first). -/
def writes16To (reg : Nat) (tr : List (List Nat)) : List Nat :=
  tr.filterMap (fun t =>
    match t with
    | [hi, lo, b0, b1] =>
      if hi == reg >>> 8 % 256 && lo == reg % 256 then some (b0 * 256 + b1) else none
    | _ => none)

/-! ## Concrete device states used by the theorems -/

/-- An empty result buffer (all-zero fields). -/
def zeroResults : ResultBuffer :=
  { rangeStatus := 0, streamCount := 0, dssActualEffectiveSpadsSD0 := 0,
    ambientCountRateMCPS_SD0 := 0, finalCrosstalkCorrectedRangeMM_SD0 := 0,
    peakSignalCountRateCrosstalkCorrectedMCPS_SD0 := 0 }

/-- A driver instance over the idealised bus with the given register
contents, oscillator frequency, calibration flag and saved VHV values. -/
def mkDriver (mem : List (Nat × Nat)) (fosc : Nat) (calibrated : Bool)
    (savedVHVInit savedVHVTimeout : Nat) : VL53L1X IdealBus :=
  { bus := { mem := mem, pending := 0, trace := [] },
    didTimeout := false,
    fastOscFrequency := fosc,
    oscCalibrateVal := 0x1000,
    calibrated := calibrated,
    savedVHVInit := savedVHVInit,
    savedVHVTimeout := savedVHVTimeout,
    distanceMode := Medium,
    timingBudget := 50,
    lastStatus := 0,
    results := zeroResults }

/-- Representative device state for the timing-budget round trip:
fast-oscillator frequency 0xCCCC, Short-mode VCSEL periods (0x07/0x05)
in the phase A/B VCSEL period registers. -/
def c2State : VL53L1X IdealBus :=
  mkDriver [(0x60, 0x07), (0x63, 0x05)] 0xCCCC false 0 0

/-- Set the budget, then read it back (ms). -/
def setGetBudget (v : VL53L1X IdealBus) (b : Nat) : Except DriverError Nat :=
  match SetMeasurementTimingBudget idealBus b v with
  | (Except.ok _, v2) => (GetMeasurementTimingBudget idealBus v2).1
  | (Except.error e, _) => Except.error e

/-- Boolean check of the ±1 ms budget round trip at `b` on `c2State`. -/
def c2ok (b : Nat) : Bool :=
  match setGetBudget c2State b with
  | Except.ok g => decide (b - 1 ≤ g) && decide (g ≤ b + 1)
  | Except.error _ => false

/-- Device state for the mode-idempotence scenario: Medium-mode VCSEL
periods and a range-A timeout register of 0x05E5 (a state produced by
an earlier `SetMeasurementTimingBudget(998)`), fosc 0xCCCC. -/
def c4State : VL53L1X IdealBus :=
  mkDriver [(0x60, 0x0B), (0x63, 0x09), (0x5E, 0x05), (0x5F, 0xE5)] 0xCCCC false 0 0

/-- The values the preset table of `SetDistanceMode` writes, per mode
and register (`Modelled from the spec:` the fixed six-plus-one register
preset table of §4.4; used only to state the amended idempotence
claim — the driver's own writes are compared against it). -/
def presetTable (mode : Int) (reg : Nat) : Nat :=
  if mode = Short then
    (if reg = RANGE_CONFIG_VCSEL_PERIOD_A then 0x07
     else if reg = RANGE_CONFIG_VCSEL_PERIOD_B then 0x05
     else if reg = RANGE_CONFIG_VALID_PHASE_HIGH then 0x38
     else if reg = SD_CONFIG_WOI_SD0 then 0x07
     else if reg = SD_CONFIG_WOI_SD1 then 0x05
     else if reg = SD_CONFIG_INITIAL_PHASE_SD0 then 6
     else if reg = SD_CONFIG_INITIAL_PHASE_SD1 then 6
     else 0)
  else if mode = Medium then
    (if reg = RANGE_CONFIG_VCSEL_PERIOD_A then 0x0B
     else if reg = RANGE_CONFIG_VCSEL_PERIOD_B then 0x09
     else if reg = RANGE_CONFIG_VALID_PHASE_HIGH then 0x78
     else if reg = SD_CONFIG_WOI_SD0 then 0x0B
     else if reg = SD_CONFIG_WOI_SD1 then 0x09
     else if reg = SD_CONFIG_INITIAL_PHASE_SD0 then 10
     else if reg = SD_CONFIG_INITIAL_PHASE_SD1 then 10
     else 0)
  else
    (if reg = RANGE_CONFIG_VCSEL_PERIOD_A then 0x0F
     else if reg = RANGE_CONFIG_VCSEL_PERIOD_B then 0x0D
     else if reg = RANGE_CONFIG_VALID_PHASE_HIGH then 0xB8
     else if reg = SD_CONFIG_WOI_SD0 then 0x0F
     else if reg = SD_CONFIG_WOI_SD1 then 0x0D
     else if reg = SD_CONFIG_INITIAL_PHASE_SD0 then 14
     else if reg = SD_CONFIG_INITIAL_PHASE_SD1 then 14
     else 0)

/-- The seven preset registers written by `SetDistanceMode`. -/
def presetRegs : List Nat :=
  [RANGE_CONFIG_VCSEL_PERIOD_A, RANGE_CONFIG_VCSEL_PERIOD_B,
   RANGE_CONFIG_VALID_PHASE_HIGH, SD_CONFIG_WOI_SD0, SD_CONFIG_WOI_SD1,
   SD_CONFIG_INITIAL_PHASE_SD0, SD_CONFIG_INITIAL_PHASE_SD1]

/-- Device memory for a continuous-ranging session: nonzero VHV
configuration (0x81 / 0x23), ready GPIO status (bit 0 clear), a result
block with raw status 9, stream count 1 and nonzero rates, and a
phasecal result of 0x42. -/
def sessionMem : List (Nat × Nat) :=
  [(0x000B, 0x81), (0x0008, 0x23), (0x0031, 0x02), (0x00D8, 0x42),
   (0x0089, 9), (0x008B, 1), (0x008C, 0x12), (0x008D, 0x34),
   (0x0090, 0x00), (0x0091, 0x10), (0x0096, 0x01), (0x0097, 0x00),
   (0x0098, 0x00), (0x0099, 0x20)]

/-- Session start state with nonzero VHV register values. -/
def c5State : VL53L1X IdealBus := mkDriver sessionMem 0xCCCC false 0 0

/-- Session start state whose VHV registers read zero (everything else
as in `c5State`). -/
def c5StateZero : VL53L1X IdealBus :=
  mkDriver ((0x000B, 0x00) :: (0x0008, 0x00) :: sessionMem) 0xCCCC false 0 0

/-- `k` successive blocking reads (each with poll budget 1), dropping
the measurements. -/
def readLoop (k : Nat) : DriverM IdealBus Unit :=
  match k with
  | 0 => pure ()
  | k + 1 => do
    let _ ← Read idealBus true 1
    readLoop k

/-- The state after `StartContinuous idealBus 55 c5State` (written out
literally so that the session scenario can be evaluated in stages). -/
def c5AfterStart : VL53L1X IdealBus :=
  { bus := { mem := [(135, 64), (134, 1), (111, 0), (110, 112), (109, 3),
                     (108, 0), (11, 129), (8, 35), (49, 2), (216, 66),
                     (137, 9), (139, 1), (140, 18), (141, 52), (144, 0),
                     (145, 16), (150, 1), (151, 0), (152, 0), (153, 32)],
             pending := 135,
             trace := [[0, 135, 64], [0, 134, 1], [0, 108, 0, 3, 112, 0]] },
    didTimeout := false,
    fastOscFrequency := 52428,
    oscCalibrateVal := 4096,
    calibrated := false,
    savedVHVInit := 0,
    savedVHVTimeout := 0,
    distanceMode := 1,
    timingBudget := 50,
    lastStatus := 0,
    results := zeroResults }

/-- The state after `StartContinuous idealBus 55 c5StateZero`, written
out literally. -/
def c5ZeroAfterStart : VL53L1X IdealBus :=
  { bus := { mem := [(135, 64), (134, 1), (111, 0), (110, 112), (109, 3),
                     (108, 0), (11, 0), (8, 0), (11, 129), (8, 35), (49, 2),
                     (216, 66), (137, 9), (139, 1), (140, 18), (141, 52),
                     (144, 0), (145, 16), (150, 1), (151, 0), (152, 0),
                     (153, 32)],
             pending := 135,
             trace := [[0, 135, 64], [0, 134, 1], [0, 108, 0, 3, 112, 0]] },
    didTimeout := false,
    fastOscFrequency := 52428,
    oscCalibrateVal := 4096,
    calibrated := false,
    savedVHVInit := 0,
    savedVHVTimeout := 0,
    distanceMode := 1,
    timingBudget := 50,
    lastStatus := 0,
    results := zeroResults }


/-- A state with the calibrated flag set (a session already past its
first read). -/
def c6State : VL53L1X IdealBus := mkDriver sessionMem 0xCCCC true 0x81 0x23

/-- A plain state for the ROI and guard-rejection facts. -/
def c9State : VL53L1X IdealBus := mkDriver [] 0xCCCC false 0 0

/-- The state after one `SetDistanceMode(Medium)` call on `c4State`
(written out literally so that the two calls of the idempotence
scenario can be evaluated one at a time). -/
def c4Mid : VL53L1X IdealBus :=
  { bus := { mem := [(98, 137), (97, 6), (93, 0), (92, 0), (95, 228), (94, 5),
                     (91, 0), (90, 0), (75, 15), (123, 10), (122, 10), (121, 9),
                     (120, 11), (105, 120), (99, 9), (96, 11), (96, 11), (99, 9),
                     (94, 5), (95, 229)],
             pending := 97,
             trace := [[0, 97, 6, 137], [0, 92, 0, 0], [0, 99], [0, 94, 5, 228],
                       [0, 90, 0, 0], [0, 75, 15], [0, 96], [0, 123, 10],
                       [0, 122, 10], [0, 121, 9], [0, 120, 11], [0, 105, 120],
                       [0, 99, 9], [0, 96, 11], [0, 94], [0, 96]] },
    didTimeout := false,
    fastOscFrequency := 52428,
    oscCalibrateVal := 4096,
    calibrated := false,
    savedVHVInit := 0,
    savedVHVTimeout := 0,
    distanceMode := 1,
    timingBudget := 50,
    lastStatus := 0,
    results := zeroResults }

/-- The state after a second `SetDistanceMode(Medium)` call (that is,
after `SetDistanceMode idealBus Medium c4Mid`), written out literally. -/
def c4End : VL53L1X IdealBus :=
  { bus := { mem := [(98, 136), (97, 6), (93, 0), (92, 0), (95, 227), (94, 5),
                     (91, 0), (90, 0), (75, 15), (123, 10), (122, 10), (121, 9),
                     (120, 11), (105, 120), (99, 9), (96, 11), (98, 137), (97, 6),
                     (93, 0), (92, 0), (95, 228), (94, 5), (91, 0), (90, 0),
                     (75, 15), (123, 10), (122, 10), (121, 9), (120, 11),
                     (105, 120), (99, 9), (96, 11), (96, 11), (99, 9), (94, 5),
                     (95, 229)],
             pending := 97,
             trace := [[0, 97, 6, 136], [0, 92, 0, 0], [0, 99], [0, 94, 5, 227],
                       [0, 90, 0, 0], [0, 75, 15], [0, 96], [0, 123, 10],
                       [0, 122, 10], [0, 121, 9], [0, 120, 11], [0, 105, 120],
                       [0, 99, 9], [0, 96, 11], [0, 94], [0, 96],
                       [0, 97, 6, 137], [0, 92, 0, 0], [0, 99], [0, 94, 5, 228],
                       [0, 90, 0, 0], [0, 75, 15], [0, 96], [0, 123, 10],
                       [0, 122, 10], [0, 121, 9], [0, 120, 11], [0, 105, 120],
                       [0, 99, 9], [0, 96, 11], [0, 94], [0, 96]] },
    didTimeout := false,
    fastOscFrequency := 52428,
    oscCalibrateVal := 4096,
    calibrated := false,
    savedVHVInit := 0,
    savedVHVTimeout := 0,
    distanceMode := 1,
    timingBudget := 50,
    lastStatus := 0,
    results := zeroResults }

/-- `PreservesDM m`: the operation leaves the stored distance mode
unchanged on every path. -/
def PreservesDM {σ : Type} {α : Type} (m : DriverM σ α) : Prop :=
  ∀ v : VL53L1X σ, ((m v).2).distanceMode = v.distanceMode

/-- `DMOnError m`: whenever the operation returns an error, the stored
distance mode is unchanged. -/
def DMOnError {σ : Type} {α : Type} (m : DriverM σ α) : Prop :=
  ∀ (v : VL53L1X σ) (e : DriverError), (m v).1 = Except.error e →
    ((m v).2).distanceMode = v.distanceMode

/-- Modelled from the spec: the value §4.5 says the DSS update writes
to the manual-SPAD-select register — `min((targetRate << 16) /
totalRatePerSpad, 0xFFFF)` when the SPAD count and the per-SPAD rate
are both nonzero, and the fixed midpoint 0x8000 in every other case.
Used only to state C7; the driver's own `updateDSS` is compared
against it. -/
def dssTarget (rb : ResultBuffer) : Nat :=
  let spadCount := rb.dssActualEffectiveSpadsSD0
  let totalRatePerSpad :=
    (min (rb.peakSignalCountRateCrosstalkCorrectedMCPS_SD0 +
          rb.ambientCountRateMCPS_SD0) 0xFFFF <<< 16) / spadCount
  if spadCount ≠ 0 ∧ totalRatePerSpad ≠ 0 then
    min ((TargetRate <<< 16) / totalRatePerSpad) 0xFFFF
  else 0x8000

/-- A result buffer exercising raw status 9 with stream count 0. -/
def rbStatus9Stream0 : ResultBuffer := { zeroResults with rangeStatus := 9 }

/-- A result buffer exercising raw status 9 with stream count 2. -/
def rbStatus9Stream2 : ResultBuffer :=
  { zeroResults with rangeStatus := 9, streamCount := 2 }

/-- A result buffer with an unrecognized raw status (200). -/
def rbStatus200 : ResultBuffer := { zeroResults with rangeStatus := 200 }

/-! ## Bounded enumeration helper

`checkAll f fuel lo n` decides `∀ i < n, f (lo + i) = true` by a
balanced binary split (so that kernel evaluation stays shallow). -/

def checkAll (f : Nat → Bool) : Nat → Nat → Nat → Bool
  | 0, _, n => n == 0
  | fuel + 1, lo, n =>
    if n == 0 then true
    else if n == 1 then f lo
    else checkAll f fuel lo (n / 2) && checkAll f fuel (lo + n / 2) (n - n / 2)

theorem checkAll_sound (f : Nat → Bool) :
    ∀ fuel lo n, checkAll f fuel lo n = true → ∀ i, i < n → f (lo + i) = true := by
  intro fuel
  induction fuel with
  | zero =>
    intro lo n h i hi
    simp only [checkAll, Nat.beq_eq_true_eq] at h
    omega
  | succ fuel ih =>
    intro lo n h i hi
    simp only [checkAll] at h
    by_cases h0 : n = 0
    · omega
    · by_cases h1 : n = 1
      · have : i = 0 := by omega
        subst this h1
        simpa [h0] using h
      · rw [if_neg (by simpa using h0), if_neg (by simpa using h1)] at h
        have h2 := (Bool.and_eq_true _ _).mp h
        by_cases hlt : i < n / 2
        · exact ih lo (n / 2) h2.1 i hlt
        · have := ih (lo + n / 2) (n - n / 2) h2.2 (i - n / 2) (by omega)
          have heq : lo + n / 2 + (i - n / 2) = lo + i := by omega
          rwa [heq] at this

/-! ## Unfolding lemmas for the driver monad -/

theorem bind_def {σ α β : Type} (m : DriverM σ α) (f : α → DriverM σ β) (v : VL53L1X σ) :
    (m >>= f) v =
      match m v with
      | (Except.ok a, v2) => f a v2
      | (Except.error e, v2) => (Except.error e, v2) := rfl

theorem pure_def {σ : Type} {α : Type} (a : α) (v : VL53L1X σ) :
    (pure a : DriverM σ α) v = (Except.ok a, v) := rfl

/-! ## C3: budget guard rejections -/

/-- C3: `SetMeasurementTimingBudget(b)` fails with the invalid-budget
error "timing budget too low" whenever the uint32 value `b*1000` is at
most the 4528 µs timing guard, and with "timing budget too high"
whenever the derived per-phase timeout `(b*1000 - 4528)/2` exceeds
1,100,000 µs; in both cases it performs no bus transaction and returns
the driver state unchanged (for any bus and any driver state). -/
theorem setBudget_guard_rejects {σ : Type} (B : BusOps σ) (v : VL53L1X σ) (budget : Nat) :
    ((budget % 2 ^ 32) * 1000 % 2 ^ 32 ≤ TimingGuard →
      SetMeasurementTimingBudget B budget v =
        (Except.error (DriverError.msg "timing budget too low"), v)) ∧
    (TimingGuard < (budget % 2 ^ 32) * 1000 % 2 ^ 32 →
      1100000 < ((budget % 2 ^ 32) * 1000 % 2 ^ 32 - TimingGuard) / 2 →
      SetMeasurementTimingBudget B budget v =
        (Except.error (DriverError.msg "timing budget too high"), v)) := by
  constructor
  · intro h
    unfold SetMeasurementTimingBudget
    rw [if_pos h]
    rfl
  · intro h1 h2
    unfold SetMeasurementTimingBudget
    rw [if_neg (by omega), if_pos h2]
    rfl

/-- Witness for C3 at budget 4 ms (too low) and 3,000,000 ms (too
high). -/
theorem setBudget_guard_rejects_witness :
    SetMeasurementTimingBudget idealBus 4 c9State =
      (Except.error (DriverError.msg "timing budget too low"), c9State) ∧
    SetMeasurementTimingBudget idealBus 3000000 c9State =
      (Except.error (DriverError.msg "timing budget too high"), c9State) :=
  ⟨(setBudget_guard_rejects idealBus c9State 4).1 (by decide),
   (setBudget_guard_rejects idealBus c9State 3000000).2 (by decide) (by decide)⟩

/-! ## C9: ROI size operations -/

/-- C9: `SetROISize(3,3)` fails with the invalid-ROI error leaving the
driver (and device) state untouched; `SetROISize(16,16)` succeeds and
writes the default centre SPAD 199 to the ROI-centre register; after a
successful `SetROISize(12,6)`, `GetROISize` returns `(12, 6)`. -/
theorem roi_size_ops :
    SetROISize idealBus 3 3 c9State =
      (Except.error (DriverError.msg "ROI size must be at least 4x4"), c9State) ∧
    ((SetROISize idealBus 16 16 c9State).1 = Except.ok () ∧
      writes8To ROI_CONFIG_USER_ROI_CENTRE_SPAD
        (SetROISize idealBus 16 16 c9State).2.bus.trace = [199]) ∧
    ((SetROISize idealBus 12 6 c9State).1 = Except.ok () ∧
      (GetROISize idealBus (SetROISize idealBus 12 6 c9State).2).1 =
        Except.ok (12, 6)) :=
  ⟨rfl, ⟨rfl, rfl⟩, rfl, rfl⟩

/-! ## C8: status decoding -/

/-- C8: the status decoder maps raw code 9 to "range valid, no wrap
check fail" when the stream count is 0 and to "range valid" otherwise,
and maps every raw code outside the recognized set
{1,2,3,4,5,6,7,8,9,12,13,17,18} to the "no update" status, without any
failure path (for every result buffer). -/
theorem status_decoding {σ : Type} (v : VL53L1X σ) :
    (v.results.rangeStatus = 9 → v.results.streamCount = 0 →
      (getRangingData v).rangeStatus = RangeStatus.RangeValidNoWrapCheckFail) ∧
    (v.results.rangeStatus = 9 → v.results.streamCount ≠ 0 →
      (getRangingData v).rangeStatus = RangeStatus.RangeValid) ∧
    (v.results.rangeStatus ∉ ([1, 2, 3, 4, 5, 6, 7, 8, 9, 12, 13, 17, 18] : List Nat) →
      (getRangingData v).rangeStatus = RangeStatus.NoneStatus) ∧
    statusString RangeStatus.RangeValidNoWrapCheckFail = "range valid, no wrap check fail" ∧
    statusString RangeStatus.RangeValid = "range valid" ∧
    statusString RangeStatus.NoneStatus = "no update" := by
  refine ⟨?_, ?_, ?_, rfl, rfl, rfl⟩
  · intro h9 h0
    simp [getRangingData, h9, h0]
  · intro h9 h0
    simp [getRangingData, h9, h0]
  · intro hmem
    simp only [List.mem_cons, List.not_mem_nil, or_false] at hmem
    push_neg at hmem
    obtain ⟨n1, n2, n3, n4, n5, n6, n7, n8, n9, n12, n13, n17, n18⟩ := hmem
    simp [getRangingData, n1, n2, n3, n4, n5, n6, n7, n8, n9, n12, n13, n17, n18]

/-- Witness for C8 at three concrete result buffers: raw status 9 with
stream counts 0 and 2, and the unrecognized raw status 200. -/
theorem status_decoding_witness :
    (getRangingData { c9State with results := rbStatus9Stream0 }).rangeStatus =
      RangeStatus.RangeValidNoWrapCheckFail ∧
    (getRangingData { c9State with results := rbStatus9Stream2 }).rangeStatus =
      RangeStatus.RangeValid ∧
    (getRangingData { c9State with results := rbStatus200 }).rangeStatus =
      RangeStatus.NoneStatus :=
  ⟨(status_decoding { c9State with results := rbStatus9Stream0 }).1 rfl rfl,
   (status_decoding { c9State with results := rbStatus9Stream2 }).2.1 rfl (by decide),
   (status_decoding { c9State with results := rbStatus200 }).2.2.1 (by decide)⟩

/-! ## C6: StartContinuous -/

/-- C6 counterexample: `StartContinuous` does not reset the session's
calibrated flag — on a state whose flag is set, the call succeeds and
the flag is still `true` afterwards (the claim says it becomes
`false`).  The flag is instead cleared by `StopContinuous`. -/
theorem startContinuous_calibrated_counterexample :
    c6State.calibrated = true ∧
    (StartContinuous idealBus 55 c6State).1 = Except.ok () ∧
    (StartContinuous idealBus 55 c6State).2.calibrated = true :=
  ⟨rfl, rfl, rfl⟩

/-- C6 amended: `StartContinuous(periodMs)` writes the
inter-measurement period register with the uint32 product
`periodMs * oscCalibrateVal`, clears the interrupt flag (0x01) and
writes the timed-mode start command 0x40 — and leaves the calibrated
flag unchanged (it does not reset it; `StopContinuous` does). -/
theorem startContinuous_writes (v : VL53L1X IdealBus) (periodMs : Nat) :
    (StartContinuous idealBus periodMs v).1 = Except.ok () ∧
    (StartContinuous idealBus periodMs v).2.calibrated = v.calibrated ∧
    (StartContinuous idealBus periodMs v).2.bus.trace =
      [0x00, 0x87, 0x40] ::
      [0x00, 0x86, 0x01] ::
      [0x00, 0x6C,
       ((periodMs % 2 ^ 32) * (v.oscCalibrateVal % 2 ^ 16) % 2 ^ 32) >>> 24 % 256,
       ((periodMs % 2 ^ 32) * (v.oscCalibrateVal % 2 ^ 16) % 2 ^ 32) >>> 16 % 256,
       ((periodMs % 2 ^ 32) * (v.oscCalibrateVal % 2 ^ 16) % 2 ^ 32) >>> 8 % 256,
       (periodMs % 2 ^ 32) * (v.oscCalibrateVal % 2 ^ 16) % 2 ^ 32 % 256] ::
      v.bus.trace :=
  ⟨rfl, rfl, rfl⟩

/-! ## C7: the DSS update -/

theorem clip16_eq_min (x : Nat) : (if x > 0xFFFF then 0xFFFF else x) = min x 0xFFFF := by
  rw [Nat.min_def]; split <;> split <;> omega

theorem clip16_shift_mod (x : Nat) :
    ((if x > 0xFFFF then 0xFFFF else x) <<< 16) % 2 ^ 32 = min x 0xFFFF <<< 16 := by
  rw [clip16_eq_min, Nat.shiftLeft_eq, Nat.mod_eq_of_lt]
  calc min x 0xFFFF * 2 ^ 16 ≤ 0xFFFF * 2 ^ 16 :=
        Nat.mul_le_mul_right _ (Nat.min_le_right _ _)
    _ < 2 ^ 32 := by norm_num

theorem min16_mod (z : Nat) : min z 0xFFFF % 2 ^ 16 = min z 0xFFFF :=
  Nat.mod_eq_of_lt (by have := Nat.min_le_right z 0xFFFF; omega)

/-- The DSS update on the idealised bus always succeeds and performs
exactly the single 16-bit write of `dssTarget` to the manual-SPAD
register (a full-state equation, shared by the DSS and session
theorems). -/
theorem updateDSS_eq (v : VL53L1X IdealBus) :
    updateDSS idealBus v =
      (Except.ok (),
       { v with
         lastStatus := 0,
         bus := { mem := memStore v.bus.mem 0x54
                    [dssTarget v.results >>> 8 % 256, dssTarget v.results % 256],
                  pending := 0x54,
                  trace := [0x00, 0x54, dssTarget v.results >>> 8 % 256,
                            dssTarget v.results % 256] :: v.bus.trace } }) := by
  unfold updateDSS
  simp only [bind_def, getDrv]
  by_cases hs : v.results.dssActualEffectiveSpadsSD0 ≠ 0
  · rw [if_pos hs, clip16_shift_mod]
    by_cases h2 : min (v.results.peakSignalCountRateCrosstalkCorrectedMCPS_SD0 +
        v.results.ambientCountRateMCPS_SD0) 0xFFFF <<< 16 /
        v.results.dssActualEffectiveSpadsSD0 ≠ 0
    · rw [if_pos h2]
      have hcap : ((TargetRate <<< 16) % 2 ^ 32) = TargetRate <<< 16 := by decide
      rw [hcap, clip16_eq_min, min16_mod]
      have htgt : dssTarget v.results =
          min (TargetRate <<< 16 /
            (min (v.results.peakSignalCountRateCrosstalkCorrectedMCPS_SD0 +
              v.results.ambientCountRateMCPS_SD0) 0xFFFF <<< 16 /
              v.results.dssActualEffectiveSpadsSD0)) 0xFFFF := by
        unfold dssTarget
        rw [if_pos ⟨hs, h2⟩]
      rw [htgt]
      rfl
    · rw [if_neg h2]
      have htgt : dssTarget v.results = 0x8000 := by
        unfold dssTarget
        rw [if_neg (by
          intro hc
          exact h2 hc.2)]
      rw [htgt]
      rfl
  · rw [if_neg hs]
    have htgt : dssTarget v.results = 0x8000 := by
      unfold dssTarget
      rw [if_neg (by
        intro hc
        exact hs hc.1)]
    rw [htgt]
    rfl

/-- C7: for every result buffer, `updateDSS` succeeds (no error path)
and performs exactly one write, to the manual-SPAD-select register,
whose 16-bit value is the one the spec prescribes (`dssTarget`): when
the effective SPAD count is nonzero and
`totalRatePerSpad = (min(peak + ambient, 0xFFFF) << 16) / spadCount`
is nonzero, the value `min((targetRate << 16) / totalRatePerSpad,
0xFFFF)`; in every other case exactly 0x8000. -/
theorem updateDSS_spec (v : VL53L1X IdealBus) :
    (updateDSS idealBus v).1 = Except.ok () ∧
    (updateDSS idealBus v).2.bus.trace =
      [0x00, 0x54, dssTarget v.results >>> 8 % 256, dssTarget v.results % 256] ::
      v.bus.trace := by
  rw [updateDSS_eq]
  exact ⟨rfl, rfl⟩

/-! ## C10: errors of SetDistanceMode leave the stored mode unchanged -/

theorem preservesDM_pure {σ α : Type} (a : α) : PreservesDM (pure a : DriverM σ α) :=
  fun _ => rfl

theorem preservesDM_fail {σ α : Type} (e : DriverError) :
    PreservesDM (fail e : DriverM σ α) := fun _ => rfl

theorem preservesDM_getDrv {σ : Type} : PreservesDM (getDrv : DriverM σ _) :=
  fun _ => rfl

theorem preservesDM_writeReg {σ : Type} (B : BusOps σ) (r x : Nat) :
    PreservesDM (writeReg B r x) := by
  intro v
  unfold writeReg
  cases B.writeBytes v.bus [r >>> 8 % 256, r % 256, x % 256] <;> rfl

theorem preservesDM_writeReg16Bit {σ : Type} (B : BusOps σ) (r x : Nat) :
    PreservesDM (writeReg16Bit B r x) := by
  intro v
  unfold writeReg16Bit
  cases B.writeBytes v.bus [r >>> 8 % 256, r % 256, x >>> 8 % 256, x % 256] <;> rfl

theorem preservesDM_readReg {σ : Type} (B : BusOps σ) (r : Nat) :
    PreservesDM (readReg B r) := by
  intro v
  unfold readReg
  split
  · rfl
  · split <;> rfl

theorem preservesDM_readReg16Bit {σ : Type} (B : BusOps σ) (r : Nat) :
    PreservesDM (readReg16Bit B r) := by
  intro v
  unfold readReg16Bit
  split
  · rfl
  · split <;> rfl

theorem preservesDM_bind {σ : Type} {α β : Type} {m : DriverM σ α}
    {f : α → DriverM σ β} (hm : PreservesDM m) (hf : ∀ a, PreservesDM (f a)) :
    PreservesDM (m >>= f) := by
  intro v
  rw [bind_def]
  have hmv := hm v
  cases hres : m v with
  | mk r v2 =>
    rw [hres] at hmv
    cases r with
    | ok a => exact (hf a v2).trans hmv
    | error e => simpa using hmv

theorem preservesDM_ite {σ : Type} {α : Type} {c : Prop} [Decidable c]
    {m1 m2 : DriverM σ α} (h1 : PreservesDM m1) (h2 : PreservesDM m2) :
    PreservesDM (if c then m1 else m2) := by
  split <;> assumption

theorem preservesDM_setBudget {σ : Type} (B : BusOps σ) (b : Nat) :
    PreservesDM (SetMeasurementTimingBudget B b) := by
  unfold SetMeasurementTimingBudget
  apply preservesDM_ite (preservesDM_fail _)
  apply preservesDM_ite (preservesDM_fail _)
  apply preservesDM_bind (preservesDM_readReg _ _)
  intro vcselA
  apply preservesDM_bind preservesDM_getDrv
  intro v
  apply preservesDM_ite (preservesDM_fail _)
  apply preservesDM_ite (preservesDM_fail _)
  apply preservesDM_bind (preservesDM_writeReg _ _ _)
  intro _
  apply preservesDM_bind (preservesDM_writeReg16Bit _ _ _)
  intro _
  apply preservesDM_bind (preservesDM_writeReg16Bit _ _ _)
  intro _
  apply preservesDM_bind (preservesDM_readReg _ _)
  intro vcselB
  apply preservesDM_ite (preservesDM_fail _)
  apply preservesDM_bind (preservesDM_writeReg16Bit _ _ _)
  intro _
  exact preservesDM_writeReg16Bit _ _ _

theorem preservesDM_getBudget {σ : Type} (B : BusOps σ) :
    PreservesDM (GetMeasurementTimingBudget B) := by
  unfold GetMeasurementTimingBudget
  apply preservesDM_bind (preservesDM_readReg _ _)
  intro vcselA
  apply preservesDM_bind preservesDM_getDrv
  intro v
  apply preservesDM_ite (preservesDM_fail _)
  apply preservesDM_bind (preservesDM_readReg16Bit _ _)
  intro encoded
  exact preservesDM_pure _

theorem dmOnError_of_preservesDM {σ : Type} {α : Type} {m : DriverM σ α}
    (h : PreservesDM m) : DMOnError m := fun v _ _ => h v

theorem dmOnError_bind {σ : Type} {α β : Type} {m : DriverM σ α}
    {f : α → DriverM σ β} (hm : PreservesDM m) (hf : ∀ a, DMOnError (f a)) :
    DMOnError (m >>= f) := by
  intro v e h
  rw [bind_def] at h ⊢
  have hmv := hm v
  cases hres : m v with
  | mk r v2 =>
    rw [hres] at hmv h
    cases r with
    | ok a =>
      simp only at h
      exact (hf a v2 e h).trans hmv
    | error e2 => simpa using hmv

theorem dmOnError_ite {σ : Type} {α : Type} {c : Prop} [Decidable c]
    {m1 m2 : DriverM σ α} (h1 : DMOnError m1) (h2 : DMOnError m2) :
    DMOnError (if c then m1 else m2) := by
  split <;> assumption

theorem dmOnError_setDrv {σ : Type} (f : VL53L1X σ → VL53L1X σ) :
    DMOnError (setDrv f) := by
  intro v e h
  simp [setDrv] at h

theorem dmOnError_fail {σ : Type} {α : Type} (e : DriverError) :
    DMOnError (fail e : DriverM σ α) := fun _ _ _ => rfl

theorem dmOnError_setDistanceMode {σ : Type} (B : BusOps σ) (mode : Int) :
    DMOnError (SetDistanceMode B mode) := by
  unfold SetDistanceMode
  apply dmOnError_bind (preservesDM_getBudget B)
  intro budget
  apply dmOnError_ite
  case h2 =>
    apply dmOnError_ite
    case h2 =>
      apply dmOnError_ite
      case h2 => exact dmOnError_fail _
      case h1 =>
        apply dmOnError_bind (preservesDM_writeReg _ _ _); intro _
        apply dmOnError_bind (preservesDM_writeReg _ _ _); intro _
        apply dmOnError_bind (preservesDM_writeReg _ _ _); intro _
        apply dmOnError_bind (preservesDM_writeReg _ _ _); intro _
        apply dmOnError_bind (preservesDM_writeReg _ _ _); intro _
        apply dmOnError_bind (preservesDM_writeReg _ _ _); intro _
        apply dmOnError_bind (preservesDM_writeReg _ _ _); intro _
        apply dmOnError_bind (preservesDM_setBudget _ _); intro _
        exact dmOnError_setDrv _
    case h1 =>
      apply dmOnError_bind (preservesDM_writeReg _ _ _); intro _
      apply dmOnError_bind (preservesDM_writeReg _ _ _); intro _
      apply dmOnError_bind (preservesDM_writeReg _ _ _); intro _
      apply dmOnError_bind (preservesDM_writeReg _ _ _); intro _
      apply dmOnError_bind (preservesDM_writeReg _ _ _); intro _
      apply dmOnError_bind (preservesDM_writeReg _ _ _); intro _
      apply dmOnError_bind (preservesDM_writeReg _ _ _); intro _
      apply dmOnError_bind (preservesDM_setBudget _ _); intro _
      exact dmOnError_setDrv _
  case h1 =>
    apply dmOnError_bind (preservesDM_writeReg _ _ _); intro _
    apply dmOnError_bind (preservesDM_writeReg _ _ _); intro _
    apply dmOnError_bind (preservesDM_writeReg _ _ _); intro _
    apply dmOnError_bind (preservesDM_writeReg _ _ _); intro _
    apply dmOnError_bind (preservesDM_writeReg _ _ _); intro _
    apply dmOnError_bind (preservesDM_writeReg _ _ _); intro _
    apply dmOnError_bind (preservesDM_writeReg _ _ _); intro _
    apply dmOnError_bind (preservesDM_setBudget _ _); intro _
    exact dmOnError_setDrv _

/-- C10: whenever `SetDistanceMode` returns an error — unrecognized
mode, a failed register access, or a failed timing-budget
re-application, on any bus model — the driver's stored distance-mode
field is unchanged, so `GetDistanceMode` returns the same mode as
before the call. -/
theorem setDistanceMode_error_keeps_mode {σ : Type} (B : BusOps σ)
    (v : VL53L1X σ) (mode : Int) (e : DriverError)
    (h : (SetDistanceMode B mode v).1 = Except.error e) :
    (SetDistanceMode B mode v).2.distanceMode = v.distanceMode ∧
    GetDistanceMode (SetDistanceMode B mode v).2 = GetDistanceMode v := by
  have := dmOnError_setDistanceMode B mode v e h
  exact ⟨this, this⟩

/-- Witness for C10: the unrecognized mode 5 on the idealised bus. -/
theorem setDistanceMode_error_keeps_mode_witness :
    (SetDistanceMode idealBus 5 c4State).1 =
      Except.error (DriverError.msg "unrecognized distance mode") ∧
    (SetDistanceMode idealBus 5 c4State).2.distanceMode = c4State.distanceMode :=
  ⟨rfl,
   (setDistanceMode_error_keeps_mode idealBus c4State 5
     (DriverError.msg "unrecognized distance mode") rfl).1⟩

/-! ## C1: the timeout encode/decode round trip

`decodeTimeout r` always has the form `a * 2^e + 1` with `a < 256` and
`a * 2^e < 2^32`; `encodeTimeout` recovers exactly such values. -/

theorem and_255 (x : Nat) : x &&& 0xFF = x % 256 := by
  have h : (0xFF : Nat) = 2 ^ 8 - 1 := by norm_num
  rw [h, Nat.and_pow_two_sub_one_eq_mod]

theorem and_himask (x : Nat) : x &&& 0xFFFFFF00 = ((x >>> 8) % 2 ^ 24) <<< 8 := by
  have hm : (0xFFFFFF00 : Nat) = (2 ^ 24 - 1) <<< 8 := by
    rw [Nat.shiftLeft_eq]
    norm_num
  apply Nat.eq_of_testBit_eq
  intro i
  rw [hm]
  simp only [Nat.testBit_and, Nat.testBit_shiftLeft, Nat.testBit_mod_two_pow,
    Nat.testBit_shiftRight, Nat.testBit_two_pow_sub_one]
  by_cases h8 : 8 ≤ i
  · have hi : 8 + (i - 8) = i := by omega
    simp only [ge_iff_le, h8, hi]
    cases hx : x.testBit i <;> simp
  · simp [h8, Nat.lt_of_not_le]

theorem and_himask_eq_zero {x : Nat} (h : x < 256) : x &&& 0xFFFFFF00 = 0 := by
  have hz : x / 2 ^ 8 = 0 := Nat.div_eq_of_lt (by omega)
  rw [and_himask, Nat.shiftRight_eq_div_pow, hz]
  decide

theorem and_himask_pos {x : Nat} (h1 : 256 ≤ x) (h2 : x < 2 ^ 32) :
    0 < x &&& 0xFFFFFF00 := by
  rw [and_himask, Nat.shiftRight_eq_div_pow, Nat.shiftLeft_eq]
  have hd : 0 < x / 2 ^ 8 := Nat.div_pos (by omega) (by omega)
  have hlt : x / 2 ^ 8 < 2 ^ 24 := by
    apply Nat.div_lt_of_lt_mul
    omega
  rw [Nat.mod_eq_of_lt hlt]
  positivity

theorem encodeLoop_spec :
    ∀ e fuel ms a, a < 256 → a * 2 ^ e < 2 ^ 32 → e ≤ fuel →
      ∃ j, j ≤ e ∧ encodeLoop fuel (a * 2 ^ e) ms = (a * 2 ^ (e - j), ms + j) ∧
        a * 2 ^ (e - j) < 256 := by
  intro e
  induction e with
  | zero =>
    intro fuel ms a ha _ _
    refine ⟨0, Nat.le_refl _, ?_, by simpa using ha⟩
    cases fuel with
    | zero => simp [encodeLoop]
    | succ fuel =>
      simp only [encodeLoop]
      rw [if_neg]
      · simp
      · rw [and_himask_eq_zero (by simpa using ha)]
        omega
  | succ e ih =>
    intro fuel ms a ha hlt hfuel
    by_cases hsmall : a * 2 ^ (e + 1) < 256
    · refine ⟨0, by omega, ?_, by simpa using hsmall⟩
      cases fuel with
      | zero => simp [encodeLoop]
      | succ fuel =>
        simp only [encodeLoop]
        rw [if_neg]
        · simp
        · rw [and_himask_eq_zero hsmall]
          omega
    · obtain ⟨fuel', rfl⟩ : ∃ fuel', fuel = fuel' + 1 := by
        cases fuel
        · omega
        · exact ⟨_, rfl⟩
      simp only [encodeLoop]
      rw [if_pos (and_himask_pos (by omega) hlt)]
      have hshift : (a * 2 ^ (e + 1)) >>> 1 = a * 2 ^ e := by
        rw [Nat.shiftRight_eq_div_pow, pow_one, Nat.pow_succ, ← Nat.mul_assoc,
          Nat.mul_div_cancel _ (by omega)]
      rw [hshift]
      have hlt' : a * 2 ^ e < 2 ^ 32 := by
        have : a * 2 ^ e ≤ a * 2 ^ (e + 1) :=
          Nat.mul_le_mul_left a (Nat.pow_le_pow_right (by omega) (by omega))
        omega
      obtain ⟨j, hj, heq, hb⟩ := ih fuel' (ms + 1) a ha hlt' (by omega)
      refine ⟨j + 1, by omega, ?_, ?_⟩
      · rw [heq, Nat.succ_sub_succ]
        congr 1
        omega
      · rwa [Nat.succ_sub_succ]

theorem encode_decode_of_form (a e : Nat) (ha : a < 256) (hlt : a * 2 ^ e < 2 ^ 32) :
    decodeTimeout (encodeTimeout (a * 2 ^ e + 1)) = a * 2 ^ e + 1 := by
  by_cases ha0 : a = 0
  · subst ha0
    simp only [Nat.zero_mul]
    decide
  · have he : e ≤ 31 := by
      by_contra h
      have h32 : (2 : Nat) ^ 32 ≤ 2 ^ e := Nat.pow_le_pow_right (by omega) (by omega)
      have : 2 ^ e ≤ a * 2 ^ e := Nat.le_mul_of_pos_left _ (by omega)
      omega
    have hn32 : a * 2 ^ e + 1 < 2 ^ 32 := by
      rcases Nat.eq_zero_or_pos e with he0 | hep
      · subst he0
        simp only [Nat.pow_zero, Nat.mul_one]
        omega
      · have heven : 2 ∣ a * 2 ^ e := Dvd.dvd.mul_left (dvd_pow_self 2 (by omega)) a
        have hodd : ¬(2 ∣ (2 ^ 32 - 1 : Nat)) := by decide
        have hne : a * 2 ^ e ≠ 2 ^ 32 - 1 := fun hEq => hodd (hEq ▸ heven)
        omega
    obtain ⟨j, hj, heq, hb⟩ := encodeLoop_spec e 32 0 a ha hlt (by omega)
    have e256 : (2 : Nat) ^ 8 = 256 := by norm_num
    have hj31 : j ≤ 31 := by omega
    have henc : encodeTimeout (a * 2 ^ e + 1) = 2 ^ 8 * j + a * 2 ^ (e - j) := by
      unfold encodeTimeout
      rw [Nat.mod_eq_of_lt hn32, if_pos (by omega)]
      simp only [Nat.add_sub_cancel, heq]
      show ((0 + j) <<< 8) % 2 ^ 16 ||| (a * 2 ^ (e - j) &&& 0xFF) =
        2 ^ 8 * j + a * 2 ^ (e - j)
      rw [and_255, Nat.mod_eq_of_lt hb, Nat.shiftLeft_eq, Nat.zero_add]
      rw [Nat.mod_eq_of_lt (by rw [e256]; omega), Nat.mul_comm]
      exact (Nat.mul_add_lt_is_or (by rw [e256]; omega) j).symm
    rw [henc]
    have hlt16 : 2 ^ 8 * j + a * 2 ^ (e - j) < 2 ^ 16 := by rw [e256]; omega
    have h1 : (2 ^ 8 * j + a * 2 ^ (e - j)) % 256 = a * 2 ^ (e - j) := by
      rw [e256]
      omega
    have h2 : (2 ^ 8 * j + a * 2 ^ (e - j)) / 2 ^ 8 = j := by
      rw [e256]
      omega
    have hbj : a * 2 ^ (e - j) * 2 ^ j = a * 2 ^ e := by
      have hee : e - j + j = e := by omega
      rw [Nat.mul_assoc, ← Nat.pow_add, hee]
    simp only [decodeTimeout]
    rw [Nat.mod_eq_of_lt hlt16, and_255, h1, Nat.shiftRight_eq_div_pow, h2,
      Nat.shiftLeft_eq, hbj, Nat.mod_eq_of_lt (by omega),
      Nat.mod_eq_of_lt (by omega)]

theorem decodeTimeout_form (r : Nat) :
    ∃ a e, a < 256 ∧ a * 2 ^ e < 2 ^ 32 ∧ decodeTimeout r = a * 2 ^ e + 1 := by
  unfold decodeTimeout
  simp only [and_255, Nat.shiftLeft_eq, Nat.shiftRight_eq_div_pow]
  set lsb := r % 2 ^ 16 % 256 with hlsb
  set msb := r % 2 ^ 16 / 2 ^ 8 with hmsb
  have hlsb256 : lsb < 256 := Nat.mod_lt _ (by omega)
  by_cases h32 : 32 ≤ msb
  · have hdvd : (2 : Nat) ^ 32 ∣ lsb * 2 ^ msb :=
      Dvd.dvd.mul_left (pow_dvd_pow 2 h32) lsb
    rw [Nat.mod_eq_zero_of_dvd hdvd]
    exact ⟨0, 0, by omega, by norm_num, by norm_num⟩
  · have hsplit : (2 : Nat) ^ 32 = 2 ^ (32 - msb) * 2 ^ msb := by
      rw [← Nat.pow_add]
      congr 1
      omega
    have hM : lsb * 2 ^ msb % 2 ^ 32 = lsb % 2 ^ (32 - msb) * 2 ^ msb := by
      rw [hsplit, Nat.mul_mod_mul_right]
    set a := lsb % 2 ^ (32 - msb) with hadef
    have ha : a < 256 := Nat.lt_of_le_of_lt (Nat.mod_le _ _) hlsb256
    have hMlt : lsb * 2 ^ msb % 2 ^ 32 < 2 ^ 32 := Nat.mod_lt _ (by positivity)
    have hane : a * 2 ^ msb ≠ 2 ^ 32 - 1 := by
      rcases Nat.eq_zero_or_pos msb with hm0 | hmp
      · rw [hm0]
        simp only [Nat.pow_zero, Nat.mul_one]
        intro hEq
        omega
      · have heven : 2 ∣ a * 2 ^ msb := Dvd.dvd.mul_left (dvd_pow_self 2 (by omega)) a
        have hodd : ¬(2 ∣ (2 ^ 32 - 1 : Nat)) := by decide
        exact fun hEq => hodd (hEq ▸ heven)
    refine ⟨a, msb, ha, by rw [← hM]; exact hMlt, ?_⟩
    rw [hM]
    rw [Nat.mod_eq_of_lt (by rw [hM] at hMlt; omega)]

/-- C1: for every timeout value in the representable range — every
value `decodeTimeout` can produce from a 16-bit register value —
encoding then decoding recovers it exactly:
`decodeTimeout (encodeTimeout (decodeTimeout r)) = decodeTimeout r`
(stated for every `r`; `decodeTimeout` itself reduces `r` mod 2^16). -/
theorem decode_encode_decode_roundtrip (r : Nat) :
    decodeTimeout (encodeTimeout (decodeTimeout r)) = decodeTimeout r := by
  obtain ⟨a, e, ha, hlt, heq⟩ := decodeTimeout_form r
  rw [heq]
  exact encode_decode_of_form a e ha hlt

/-! ## C2: the timing-budget round trip -/

/-- C2 counterexample: on the representative state `c2State`
(fosc = 0xCCCC, Short-mode VCSEL periods), `SetMeasurementTimingBudget 190`
succeeds, but the subsequent `GetMeasurementTimingBudget` returns
188 ms — more than 1 ms away from the 190 ms that was set.  The
claimed ±1 ms tolerance therefore fails on this in-range budget. -/
theorem budget_roundtrip_counterexample :
    (SetMeasurementTimingBudget idealBus 190 c2State).1 = Except.ok () ∧
    setGetBudget c2State 190 = Except.ok 188 ∧
    ¬(190 - 1 ≤ 188 ∧ (188 : Nat) ≤ 190 + 1) :=
  ⟨rfl, rfl, by decide⟩

theorem c2ok_sound (b : Nat) (h : c2ok b = true) :
    ∃ g, setGetBudget c2State b = Except.ok g ∧ b - 1 ≤ g ∧ g ≤ b + 1 := by
  unfold c2ok at h
  cases hs : setGetBudget c2State b with
  | ok g =>
    rw [hs] at h
    simp only [Bool.and_eq_true, decide_eq_true_eq] at h
    exact ⟨g, rfl, h.1, h.2⟩
  | error e =>
    rw [hs] at h
    simp at h

set_option maxHeartbeats 10000000 in
/-- C2 amended: the ±1 ms round trip does not hold for every budget in
[33, 1000] on every device state (see the counterexample at 190 ms);
it does hold on the representative state `c2State` for every budget in
[33, 189]: setting then reading the budget back returns a value within
1 ms of the value set. -/
theorem budget_roundtrip_amended (b : Nat) (h33 : 33 ≤ b) (h189 : b ≤ 189) :
    ∃ g, setGetBudget c2State b = Except.ok g ∧ b - 1 ≤ g ∧ g ≤ b + 1 := by
  have hall : checkAll c2ok 16 33 157 = true := by decide
  have hcase := checkAll_sound c2ok 16 33 157 hall (b - 33) (by omega)
  have hb : 33 + (b - 33) = b := by omega
  rw [hb] at hcase
  exact c2ok_sound b hcase

/-- Witness for C2 at the in-range budget 55 ms. -/
theorem budget_roundtrip_amended_witness :
    ∃ g, setGetBudget c2State 55 = Except.ok g ∧ 55 - 1 ≤ g ∧ g ≤ 55 + 1 :=
  budget_roundtrip_amended 55 (by decide) (by decide)

/-! ## C4: SetDistanceMode idempotence -/

set_option maxHeartbeats 40000000 in
theorem c4_step1 : SetDistanceMode idealBus Medium c4State = (Except.ok (), c4Mid) := by
  decide

set_option maxHeartbeats 40000000 in
theorem c4_step2 : SetDistanceMode idealBus Medium c4Mid = (Except.ok (), c4End) := by
  decide

/-- C4 counterexample: calling `SetDistanceMode(Medium)` twice in
succession on `c4State`, both calls succeed, but the second call's 16
register transactions differ from those a single call performs (the
range timeout registers receive 0x05E3/0x0688 instead of
0x05E4/0x0689), and the effective timing budget — 993 ms before the
first call — reads back as 985 ms afterwards, not 993. -/
theorem setDistanceMode_idempotence_counterexample :
    (SetDistanceMode idealBus Medium c4State).1 = Except.ok () ∧
    (SetDistanceMode idealBus Medium
       (SetDistanceMode idealBus Medium c4State).2).1 = Except.ok () ∧
    (SetDistanceMode idealBus Medium
       (SetDistanceMode idealBus Medium c4State).2).2.bus.trace.take 16 ≠
      (SetDistanceMode idealBus Medium c4State).2.bus.trace.take 16 ∧
    (GetMeasurementTimingBudget idealBus c4State).1 = Except.ok 993 ∧
    (GetMeasurementTimingBudget idealBus
       (SetDistanceMode idealBus Medium
         (SetDistanceMode idealBus Medium c4State).2).2).1 ≠ Except.ok 993 := by
  simp only [c4_step1]
  simp only [c4_step2]
  refine ⟨trivial, trivial, by decide, by decide, by decide⟩

/-- C4 amended: in the two successive `SetDistanceMode(Medium)` calls
of the scenario, each call writes the seven preset (VCSEL period,
phase and SD) registers with the identical values of the fixed
per-mode preset table, and the stored distance mode is Medium after
each call; what the second call does not repeat identically are the
budget-dependent timeout-register writes (and hence the effective
timing budget — see the counterexample). -/
theorem setDistanceMode_presets_amended :
    (∀ reg ∈ presetRegs,
      writes8To reg (SetDistanceMode idealBus Medium c4State).2.bus.trace =
        [presetTable Medium reg] ∧
      writes8To reg (SetDistanceMode idealBus Medium
          (SetDistanceMode idealBus Medium c4State).2).2.bus.trace =
        [presetTable Medium reg, presetTable Medium reg]) ∧
    (SetDistanceMode idealBus Medium c4State).2.distanceMode = Medium ∧
    (SetDistanceMode idealBus Medium
      (SetDistanceMode idealBus Medium c4State).2).2.distanceMode = Medium := by
  simp only [c4_step1]
  simp only [c4_step2]
  refine ⟨by decide, rfl, rfl⟩

/-! ## C5: once-per-session calibration save/restore -/

/-- Every byte the idealised memory returns is below 256. -/
theorem memRead_lt (mem : List (Nat × Nat)) (a : Nat) : memRead mem a < 256 := by
  induction mem with
  | nil => simp [memRead]
  | cons p rest ih =>
    obtain ⟨a2, b⟩ := p
    simp only [memRead]
    split
    · omega
    · exact ih

/-- Concrete unfolding of the 17-element index range. -/
theorem range17 : List.range 17 = [0,1,2,3,4,5,6,7,8,9,10,11,12,13,14,15,16] := rfl

/-- Concrete unfolding of the single-element index range. -/
theorem range1 : List.range 1 = [0] := rfl

/-- Projection of the idealised bus onto its write operation. -/
theorem idealBus_write : idealBus.writeBytes = idealWriteBytes := rfl

/-- Projection of the idealised bus onto its read operation. -/
theorem idealBus_read : idealBus.readBytes = idealReadBytes := rfl

set_option maxHeartbeats 16000000 in
/-- A `Read` on an already-calibrated driver whose data-ready bit is
clear succeeds, leaves the calibration flag and both saved VHV values
untouched, keeps the ready bit clear, and performs no write to either
VHV configuration register. -/
theorem read_keeps (v : VL53L1X IdealBus)
    (hcal : v.calibrated = true)
    (hready : memRead v.bus.mem GPIO_TIO_HV_STATUS % 2 = 0) :
    (Read idealBus true 1 v).1.isOk = true ∧
    (Read idealBus true 1 v).2.calibrated = true ∧
    (Read idealBus true 1 v).2.savedVHVInit = v.savedVHVInit ∧
    (Read idealBus true 1 v).2.savedVHVTimeout = v.savedVHVTimeout ∧
    memRead (Read idealBus true 1 v).2.bus.mem GPIO_TIO_HV_STATUS % 2 = 0 ∧
    writes8To VHV_CONFIG_INIT (Read idealBus true 1 v).2.bus.trace =
      writes8To VHV_CONFIG_INIT v.bus.trace ∧
    writes8To VHV_CONFIG_TIMEOUT_MACROP_LOOP_BOUND (Read idealBus true 1 v).2.bus.trace =
      writes8To VHV_CONFIG_TIMEOUT_MACROP_LOOP_BOUND v.bus.trace := by
  have h256 : memRead v.bus.mem 49 % 256 = memRead v.bus.mem 49 :=
    Nat.mod_eq_of_lt (memRead_lt _ _)
  have hr2 : memRead v.bus.mem 49 % 2 = 0 := hready
  unfold Read pollUntilReady dataReady readResults
  simp [bind_def, pure_def, getDrv, setDrv, fail, readReg, writeReg,
    idealBus_write, idealBus_read, idealWriteBytes, idealReadBytes, memStore, range1, range17,
    GPIO_TIO_HV_STATUS, RESULT_RANGE_STATUS, SYSTEM_INTERRUPT_CLEAR,
    VHV_CONFIG_INIT, VHV_CONFIG_TIMEOUT_MACROP_LOOP_BOUND,
    hcal, h256, hr2, Nat.and_one_is_mod, updateDSS_eq, writes8To, memRead, Except.isOk, Except.toBool]

/-- An `Except` whose `isOk` field is `true` is an `ok`. -/
theorem isOk_exists {e a : Type} (x : Except e a) (h : x.isOk = true) :
    ∃ y, x = Except.ok y := by
  cases x with
  | error err => simp [Except.isOk, Except.toBool] at h
  | ok y => exact ⟨y, rfl⟩

set_option maxHeartbeats 16000000 in
/-- The first `Read` of a session (calibration flag still clear, ready
bit clear) succeeds, sets the calibration flag, saves both VHV register
values into the driver, keeps the ready bit clear, and writes each VHV
configuration register exactly once (the disable/loop-bound overrides
of `setupManualCalibration`). -/
theorem read_first (v : VL53L1X IdealBus)
    (hcal : v.calibrated = false)
    (hready : memRead v.bus.mem GPIO_TIO_HV_STATUS % 2 = 0) :
    (Read idealBus true 1 v).1.isOk = true ∧
    (Read idealBus true 1 v).2.calibrated = true ∧
    (Read idealBus true 1 v).2.savedVHVInit = memRead v.bus.mem VHV_CONFIG_INIT ∧
    (Read idealBus true 1 v).2.savedVHVTimeout =
      memRead v.bus.mem VHV_CONFIG_TIMEOUT_MACROP_LOOP_BOUND ∧
    memRead (Read idealBus true 1 v).2.bus.mem GPIO_TIO_HV_STATUS % 2 = 0 ∧
    writes8To VHV_CONFIG_INIT (Read idealBus true 1 v).2.bus.trace =
      ((memRead v.bus.mem VHV_CONFIG_INIT &&& 0x7F) % 256) ::
        writes8To VHV_CONFIG_INIT v.bus.trace ∧
    writes8To VHV_CONFIG_TIMEOUT_MACROP_LOOP_BOUND (Read idealBus true 1 v).2.bus.trace =
      (((memRead v.bus.mem VHV_CONFIG_TIMEOUT_MACROP_LOOP_BOUND &&& 0x03) + 12) % 256) ::
        writes8To VHV_CONFIG_TIMEOUT_MACROP_LOOP_BOUND v.bus.trace := by
  have h256 : memRead v.bus.mem 49 % 256 = memRead v.bus.mem 49 :=
    Nat.mod_eq_of_lt (memRead_lt _ _)
  have hr2 : memRead v.bus.mem 49 % 2 = 0 := hready
  have hi256 : memRead v.bus.mem 11 % 256 = memRead v.bus.mem 11 :=
    Nat.mod_eq_of_lt (memRead_lt _ _)
  have ht256 : memRead v.bus.mem 8 % 256 = memRead v.bus.mem 8 :=
    Nat.mod_eq_of_lt (memRead_lt _ _)
  unfold Read pollUntilReady dataReady readResults setupManualCalibration
  simp [bind_def, pure_def, getDrv, setDrv, fail, readReg, writeReg,
    idealBus_write, idealBus_read, idealWriteBytes, idealReadBytes, memStore, range1, range17,
    GPIO_TIO_HV_STATUS, RESULT_RANGE_STATUS, SYSTEM_INTERRUPT_CLEAR,
    VHV_CONFIG_INIT, VHV_CONFIG_TIMEOUT_MACROP_LOOP_BOUND,
    PHASECAL_CONFIG_OVERRIDE, PHASECAL_RESULT_VCSEL_START, CAL_CONFIG_VCSEL_START,
    hcal, h256, hr2, hi256, ht256, Nat.and_one_is_mod, updateDSS_eq, writes8To, memRead,
    Except.isOk, Except.toBool]

/-- When both saved VHV values are nonzero, `StopContinuous` clears the
calibration flag and writes each saved value back to its VHV register
exactly once. -/
theorem stop_restores (v : VL53L1X IdealBus)
    (hsi : v.savedVHVInit ≠ 0) (hst : v.savedVHVTimeout ≠ 0) :
    (StopContinuous idealBus v).1 = Except.ok () ∧
    (StopContinuous idealBus v).2.calibrated = false ∧
    writes8To VHV_CONFIG_INIT (StopContinuous idealBus v).2.bus.trace =
      (v.savedVHVInit % 256) :: writes8To VHV_CONFIG_INIT v.bus.trace ∧
    writes8To VHV_CONFIG_TIMEOUT_MACROP_LOOP_BOUND
        (StopContinuous idealBus v).2.bus.trace =
      (v.savedVHVTimeout % 256) ::
        writes8To VHV_CONFIG_TIMEOUT_MACROP_LOOP_BOUND v.bus.trace := by
  unfold StopContinuous
  simp [bind_def, pure_def, getDrv, setDrv, writeReg, idealBus_write, idealWriteBytes,
    memStore, SYSTEM_MODE_START, VHV_CONFIG_INIT, VHV_CONFIG_TIMEOUT_MACROP_LOOP_BOUND,
    PHASECAL_CONFIG_OVERRIDE, hsi, hst, writes8To]

/-- When both saved VHV values are zero, `StopContinuous` clears the
calibration flag but performs no write at all to either VHV register:
the guarded restore writes are skipped. -/
theorem stop_no_restore (v : VL53L1X IdealBus)
    (hsi : v.savedVHVInit = 0) (hst : v.savedVHVTimeout = 0) :
    (StopContinuous idealBus v).1 = Except.ok () ∧
    (StopContinuous idealBus v).2.calibrated = false ∧
    writes8To VHV_CONFIG_INIT (StopContinuous idealBus v).2.bus.trace =
      writes8To VHV_CONFIG_INIT v.bus.trace ∧
    writes8To VHV_CONFIG_TIMEOUT_MACROP_LOOP_BOUND
        (StopContinuous idealBus v).2.bus.trace =
      writes8To VHV_CONFIG_TIMEOUT_MACROP_LOOP_BOUND v.bus.trace := by
  unfold StopContinuous
  simp [bind_def, pure_def, getDrv, setDrv, writeReg, idealBus_write, idealWriteBytes,
    memStore, SYSTEM_MODE_START, VHV_CONFIG_INIT, VHV_CONFIG_TIMEOUT_MACROP_LOOP_BOUND,
    PHASECAL_CONFIG_OVERRIDE, hsi, hst, writes8To]

/-- Any number of further `Read`s after the first keeps the calibration
flag set, both saved VHV values unchanged, the ready bit clear, and
adds no write to either VHV configuration register. -/
theorem readLoop_keeps (k : Nat) (v : VL53L1X IdealBus)
    (hcal : v.calibrated = true)
    (hready : memRead v.bus.mem GPIO_TIO_HV_STATUS % 2 = 0) :
    (readLoop k v).1 = Except.ok () ∧
    (readLoop k v).2.calibrated = true ∧
    (readLoop k v).2.savedVHVInit = v.savedVHVInit ∧
    (readLoop k v).2.savedVHVTimeout = v.savedVHVTimeout ∧
    memRead (readLoop k v).2.bus.mem GPIO_TIO_HV_STATUS % 2 = 0 ∧
    writes8To VHV_CONFIG_INIT (readLoop k v).2.bus.trace =
      writes8To VHV_CONFIG_INIT v.bus.trace ∧
    writes8To VHV_CONFIG_TIMEOUT_MACROP_LOOP_BOUND (readLoop k v).2.bus.trace =
      writes8To VHV_CONFIG_TIMEOUT_MACROP_LOOP_BOUND v.bus.trace := by
  induction k generalizing v with
  | zero =>
    refine ⟨rfl, hcal, rfl, rfl, hready, rfl, rfl⟩
  | succ k ih =>
    have hks := read_keeps v hcal hready
    rcases hR : Read idealBus true 1 v with ⟨r, w⟩
    rw [hR] at hks
    obtain ⟨hok, hc, hsi, hst, hr, hw1, hw2⟩ := hks
    obtain ⟨y, hy⟩ := isOk_exists r hok
    have hstep : readLoop (k + 1) v = readLoop k w := by
      show (Read idealBus true 1 >>= fun _ => readLoop k) v = readLoop k w
      rw [bind_def, hR, hy]
    obtain ⟨iok, ic, isi, ist, ir, iw1, iw2⟩ := ih w hc hr
    rw [hstep]
    exact ⟨iok, ic, isi.trans hsi, ist.trans hst, ir, iw1.trans hw1, iw2.trans hw2⟩

set_option maxHeartbeats 4000000 in
/-- C5 counterexample: on a session whose VHV registers read zero
(`c5StateZero`), start continuous mode, take the first (successful,
calibrating) read and stop — the stop adds no write to either VHV
configuration register, so the saved VHV values are never restored:
the guarded restore of `StopContinuous` is skipped when a saved value
is zero, refuting "restored exactly once (when the session stops)". -/
theorem session_restore_counterexample :
    StartContinuous idealBus 55 c5StateZero = (Except.ok (), c5ZeroAfterStart) ∧
    (Read idealBus true 1 c5ZeroAfterStart).1.isOk = true ∧
    (Read idealBus true 1 c5ZeroAfterStart).2.calibrated = true ∧
    (StopContinuous idealBus (Read idealBus true 1 c5ZeroAfterStart).2).1 =
      Except.ok () ∧
    writes8To VHV_CONFIG_INIT
      (Read idealBus true 1 c5ZeroAfterStart).2.bus.trace = [0x00] ∧
    writes8To VHV_CONFIG_TIMEOUT_MACROP_LOOP_BOUND
      (Read idealBus true 1 c5ZeroAfterStart).2.bus.trace = [12] ∧
    writes8To VHV_CONFIG_INIT
      (StopContinuous idealBus
        (Read idealBus true 1 c5ZeroAfterStart).2).2.bus.trace = [0x00] ∧
    writes8To VHV_CONFIG_TIMEOUT_MACROP_LOOP_BOUND
      (StopContinuous idealBus
        (Read idealBus true 1 c5ZeroAfterStart).2).2.bus.trace = [12] := by
  obtain ⟨hok, hc, hsivs, hstvs, hr, hw1, hw2⟩ :=
    read_first c5ZeroAfterStart rfl (by decide)
  have hsi0 : (Read idealBus true 1 c5ZeroAfterStart).2.savedVHVInit = 0 := by
    rw [hsivs]; decide
  have hst0 : (Read idealBus true 1 c5ZeroAfterStart).2.savedVHVTimeout = 0 := by
    rw [hstvs]; decide
  obtain ⟨sok, sc, sw1, sw2⟩ :=
    stop_no_restore (Read idealBus true 1 c5ZeroAfterStart).2 hsi0 hst0
  have hW1 : writes8To VHV_CONFIG_INIT
      (Read idealBus true 1 c5ZeroAfterStart).2.bus.trace = [0x00] := by
    rw [hw1]; decide
  have hW2 : writes8To VHV_CONFIG_TIMEOUT_MACROP_LOOP_BOUND
      (Read idealBus true 1 c5ZeroAfterStart).2.bus.trace = [12] := by
    rw [hw2]; decide
  exact ⟨by decide, hok, hc, sok, hW1, hW2, sw1.trans hW1, sw2.trans hW2⟩

set_option maxHeartbeats 4000000 in
/-- C5 (amended): in a continuous session on `c5State` (VHV registers
reading 0x81/0x23) — start, a first blocking read, `k` further reads,
stop — the calibration flag is set exactly at the first successful
read and stays set until the stop clears it; the VHV configuration
registers are each written exactly once during the reads (the save
phase of the first read) and, because the saved values are nonzero,
exactly once more at the stop, with the saved values restored.  The
restore-at-stop half of the original claim holds only under this
nonzero-saved-value proviso (see the counterexample). -/
theorem session_calibration_amended (k : Nat) :
    c5State.calibrated = false ∧
    StartContinuous idealBus 55 c5State = (Except.ok (), c5AfterStart) ∧
    c5AfterStart.calibrated = false ∧
    (Read idealBus true 1 c5AfterStart).1.isOk = true ∧
    (Read idealBus true 1 c5AfterStart).2.calibrated = true ∧
    writes8To VHV_CONFIG_INIT
      (Read idealBus true 1 c5AfterStart).2.bus.trace = [0x01] ∧
    writes8To VHV_CONFIG_TIMEOUT_MACROP_LOOP_BOUND
      (Read idealBus true 1 c5AfterStart).2.bus.trace = [15] ∧
    (readLoop k (Read idealBus true 1 c5AfterStart).2).1 = Except.ok () ∧
    (readLoop k (Read idealBus true 1 c5AfterStart).2).2.calibrated = true ∧
    writes8To VHV_CONFIG_INIT
      (readLoop k (Read idealBus true 1 c5AfterStart).2).2.bus.trace = [0x01] ∧
    writes8To VHV_CONFIG_TIMEOUT_MACROP_LOOP_BOUND
      (readLoop k (Read idealBus true 1 c5AfterStart).2).2.bus.trace = [15] ∧
    (StopContinuous idealBus
      (readLoop k (Read idealBus true 1 c5AfterStart).2).2).1 = Except.ok () ∧
    (StopContinuous idealBus
      (readLoop k (Read idealBus true 1 c5AfterStart).2).2).2.calibrated = false ∧
    writes8To VHV_CONFIG_INIT
      (StopContinuous idealBus
        (readLoop k (Read idealBus true 1 c5AfterStart).2).2).2.bus.trace =
      [0x81, 0x01] ∧
    writes8To VHV_CONFIG_TIMEOUT_MACROP_LOOP_BOUND
      (StopContinuous idealBus
        (readLoop k (Read idealBus true 1 c5AfterStart).2).2).2.bus.trace =
      [0x23, 15] := by
  obtain ⟨hok, hc, hsivs, hstvs, hr, hw1, hw2⟩ :=
    read_first c5AfterStart rfl (by decide)
  have hsi : (Read idealBus true 1 c5AfterStart).2.savedVHVInit = 0x81 := by
    rw [hsivs]; decide
  have hst' : (Read idealBus true 1 c5AfterStart).2.savedVHVTimeout = 0x23 := by
    rw [hstvs]; decide
  have hW1 : writes8To VHV_CONFIG_INIT
      (Read idealBus true 1 c5AfterStart).2.bus.trace = [0x01] := by
    rw [hw1]; decide
  have hW2 : writes8To VHV_CONFIG_TIMEOUT_MACROP_LOOP_BOUND
      (Read idealBus true 1 c5AfterStart).2.bus.trace = [15] := by
    rw [hw2]; decide
  obtain ⟨lok, lc, lsi, lst, lr, lw1, lw2⟩ :=
    readLoop_keeps k (Read idealBus true 1 c5AfterStart).2 hc hr
  have lsi81 : (readLoop k (Read idealBus true 1 c5AfterStart).2).2.savedVHVInit =
      0x81 := lsi.trans hsi
  have lst23 :
      (readLoop k (Read idealBus true 1 c5AfterStart).2).2.savedVHVTimeout =
      0x23 := lst.trans hst'
  obtain ⟨sok, sc, sw1, sw2⟩ :=
    stop_restores (readLoop k (Read idealBus true 1 c5AfterStart).2).2
      (by rw [lsi81]; decide) (by rw [lst23]; decide)
  have sW1 : writes8To VHV_CONFIG_INIT
      (StopContinuous idealBus
        (readLoop k (Read idealBus true 1 c5AfterStart).2).2).2.bus.trace =
      [0x81, 0x01] := by
    rw [sw1, lsi81, lw1.trans hW1]
  have sW2 : writes8To VHV_CONFIG_TIMEOUT_MACROP_LOOP_BOUND
      (StopContinuous idealBus
        (readLoop k (Read idealBus true 1 c5AfterStart).2).2).2.bus.trace =
      [0x23, 15] := by
    rw [sw2, lst23, lw2.trans hW2]
  exact ⟨rfl, by decide, rfl, hok, hc, hW1, hW2, lok, lc,
    lw1.trans hW1, lw2.trans hW2, sok, sc, sW1, sW2⟩

end VL53
